import Mathlib

/-!
# PylonSample_RGB_Values

A shallow embedding of `main` of `PylonSample_RGB_Values.cpp`.

The program is an orchestration of calls into the pylon camera SDK.  The SDK is
not part of the repository, so it enters the embedding as a parameter: a record
`Sdk` of functions, each returning either a value or a
`GenICam::GenericException`.  The camera object is stateful (its methods take
and return a camera state of an abstract type `Cam`); the converter, the image
operations, persistence and display are functions of their arguments.

`main` produces a `Run`: the trace of SDK calls and console events in program
order, and an outcome (the exit code, or the absence of one).
-/

namespace PylonSample

/-! ## Data model -/

/-- An 8-bit sample (`uint8_t`). -/
abbrev Byte := Fin 256

/-- `GenICam::GenericException`: the base class of every exception the SDK raises.
Only its description is observed by `main` (line 166). -/
structure GenericException where
  description : String
deriving DecidableEq, Repr

/-- `Pylon::EPixelType`.  `main` names two enumerators (lines 94 and 121); a
default constructed image has `PixelType_Undefined`; every other enumerator is
kept by its numeric code. -/
inductive PixelType where
  | Undefined
  | RGB8packed
  | RGB8planar
  | other (code : Nat)
deriving DecidableEq, Repr

/-- `Pylon::EImageFileFormat`; `main` only uses `ImageFileFormat_Bmp`. -/
inductive ImageFileFormat where
  | Bmp
  | other (code : Nat)
deriving DecidableEq, Repr

/-- `Pylon::ETimeoutHandling`. -/
inductive TimeoutHandling where
  | Return
  | ThrowException
deriving DecidableEq, Repr

/-- What `main` observes of an `IImage` (`CPylonImage` or the image view of a grab
result): pixel type, size and the bytes behind `GetBuffer()`. -/
structure Image where
  pixelType : PixelType
  width : Nat
  height : Nat
  buffer : List Byte
deriving DecidableEq, Repr

/-- A default constructed `CPylonImage` (lines 59 to 65): invalid, no buffer. -/
def Image.empty : Image :=
  { pixelType := PixelType.Undefined, width := 0, height := 0, buffer := [] }

/-- What `main` observes of the object behind a `CGrabResultPtr`. -/
structure GrabResult where
  grabSucceeded : Bool
  image : Image
  errorCode : Nat
  errorDescription : String
deriving DecidableEq, Repr

/-- The SDK calls `main` makes that may raise, with their arguments. -/
inductive Call where
  | CreateFirstDevice (serialNumber : String)
  | Open
  | FromString (node : String) (value : String)
  | StartGrabbing (maxImages : Nat)
  | RetrieveResult (timeoutMs : Nat) (handling : TimeoutHandling)
  | Convert (outputPixelFormat : PixelType) (source : Image)
  | AttachGrabResultBuffer (grabResult : GrabResult)
  | GetPlane (image : Image) (planeIndex : Nat)
  | Save (format : ImageFileFormat) (filename : String) (image : Image)
  | DisplayImage (winIndex : Nat) (image : Image)
deriving DecidableEq, Repr

/-- The lines `main` writes to `cout` and `cerr`, one constructor per statement. -/
inductive Output where
  /-- Line 44: "Using device " followed by the model name. -/
  | usingDevice (modelName : String)
  /-- Line 81: "Image Pixel format: " followed by the name of the pixel type. -/
  | pixelFormat (name : String)
  /-- Line 86: "Image is not color. Please set ...". -/
  | notColor
  /-- Lines 111 and 136: `cout << endl`. -/
  | blank
  /-- Line 112: "Accessing RGB values of image...". -/
  | accessingRGB
  /-- Line 113: "Red Value of first pixel   : ". -/
  | redValue (v : Nat)
  /-- Line 114: "Green Value of first pixel : ". -/
  | greenValue (v : Nat)
  /-- Line 115: "Blue Value of first pixel  : ". -/
  | blueValue (v : Nat)
  /-- Line 137: "Accessing RGB values of RGB image converted to planar format...". -/
  | accessingPlanar
  /-- Line 138: "Value of first pixel in Red Plane   : ". -/
  | redPlane (v : Nat)
  /-- Line 139: "Value of first pixel in Green Plane : ". -/
  | greenPlane (v : Nat)
  /-- Line 140: "Value of first pixel in Blue Plane  : ". -/
  | bluePlane (v : Nat)
  /-- Line 158: "Error: " followed by error code and error description. -/
  | grabError (errorCode : Nat) (errorDescription : String)
  /-- Lines 165 and 166: "An exception occurred." and the description. -/
  | exceptionOccurred (description : String)
  /-- Line 171: "Press Enter to exit.". -/
  | pressEnter
deriving DecidableEq, Repr

/-- One observable step of a run. -/
inductive Event where
  /-- An SDK call is entered. -/
  | call (c : Call)
  /-- The SDK call entered last raised. -/
  | raised (e : GenericException)
  /-- The loop condition `camera.IsGrabbing()` (line 70) was evaluated. -/
  | isGrabbing (result : Bool)
  /-- A line on `cout`. -/
  | cout (o : Output)
  /-- A line on `cerr`. -/
  | cerr (o : Output)
  /-- One `cin.get()` (line 172) and the `int` it returned. -/
  | cinGet (result : Int)
deriving DecidableEq, Repr

/-- The pylon SDK as far as `main` uses it.  `Cam` is the state of the
`CInstantCamera` object (and of the device behind it). -/
structure Sdk (Cam : Type) where
  /-- `CInstantCamera camera(CTlFactory::GetInstance().CreateFirstDevice(info))`,
  with `info` carrying only a serial number. -/
  CreateFirstDevice : String → Except GenericException Cam
  /-- `camera.GetDeviceInfo().GetModelName()`. -/
  GetModelName : Cam → String
  /-- `camera.Open()`. -/
  Open : Cam → Except GenericException Cam
  /-- `CEnumerationPtr(camera.GetNodeMap().GetNode(node))->FromString(value)`. -/
  FromString : String → String → Cam → Except GenericException Cam
  /-- `camera.StartGrabbing(maxImages)`. -/
  StartGrabbing : Nat → Cam → Except GenericException Cam
  /-- `camera.IsGrabbing()`. -/
  IsGrabbing : Cam → Bool
  /-- `camera.RetrieveResult(timeoutMs, ptrGrabResult, handling)`. -/
  RetrieveResult : Nat → TimeoutHandling → Cam → Except GenericException (GrabResult × Cam)
  /-- `CPixelTypeMapper::GetNameByPixelType`. -/
  GetNameByPixelType : PixelType → String
  /-- `Pylon::IsColorImage`. -/
  IsColorImage : PixelType → Bool
  /-- `Pylon::IsRGB`. -/
  IsRGB : PixelType → Bool
  /-- The value of `OutputPixelFormat` in a fresh `CImageFormatConverter`. -/
  defaultOutputPixelFormat : PixelType
  /-- `converter.Convert(destination, source)` with the converter's current
  `OutputPixelFormat`; the result is the new content of `destination`. -/
  Convert : PixelType → Image → Except GenericException Image
  /-- `image.AttachGrabResultBuffer(grabResult)`: may raise; when it does not,
  the image shares the grab result's buffer. -/
  AttachGrabResultBuffer : GrabResult → Except GenericException Unit
  /-- `image.GetPlane(planeIndex)`. -/
  GetPlane : Image → Nat → Except GenericException Image
  /-- `CImagePersistence::Save(format, filename, image)`. -/
  Save : ImageFileFormat → String → Image → Except GenericException Unit
  /-- `Pylon::DisplayImage(winIndex, image)`. -/
  DisplayImage : Nat → Image → Except GenericException Unit

/-- The variables of `main` that live in the `try` block outside the loop
(lines 41 to 65): the camera, the grab result pointer, the converter (of which
only `OutputPixelFormat` is state) and the five images. -/
structure Vars (Cam : Type) where
  camera : Cam
  ptrGrabResult : Option GrabResult
  OutputPixelFormat : PixelType
  myRGBImage : Image
  myRGBPlanarImage : Image
  myRedImage : Image
  myGreenImage : Image
  myBlueImage : Image

/-! ## Execution monad -/

/-- How a piece of the `try` block ends. -/
inductive Res (σ α : Type) where
  /-- Normal completion with a value and the new variables. -/
  | ok (a : α) (s : σ)
  /-- A `GenICam::GenericException` propagates. -/
  | thrown (e : GenericException)
  /-- A read through a null or too short pointer: undefined behaviour. -/
  | undefinedBehaviour
  /-- The loop budget of the model is used up. -/
  | outOfFuel

/-- A statement: from the variables to the events it emits and how it ends. -/
def M (σ α : Type) : Type := σ → List Event × Res σ α

/-- Sequencing: the events of the first statement, then (if it completed) those
of the second. -/
def M.bind {σ α β : Type} (m : M σ α) (f : α → M σ β) : M σ β := fun s =>
  match m s with
  | (t, Res.ok a s1) => (t ++ (f a s1).1, (f a s1).2)
  | (t, Res.thrown e) => (t, Res.thrown e)
  | (t, Res.undefinedBehaviour) => (t, Res.undefinedBehaviour)
  | (t, Res.outOfFuel) => (t, Res.outOfFuel)

instance {σ : Type} : Monad (M σ) where
  pure a := fun s => ([], Res.ok a s)
  bind := M.bind

/-- Emit one event. -/
def emit {σ : Type} (e : Event) : M σ Unit := fun s => ([e], Res.ok () s)

/-- `cout << ... << endl`. -/
def cout {σ : Type} (o : Output) : M σ Unit := emit (Event.cout o)

/-- Read an expression over the variables. -/
def readVar {σ α : Type} (f : σ → α) : M σ α := fun s => ([], Res.ok (f s) s)

/-- Assign to the variables. -/
def modifyVars {σ : Type} (f : σ → σ) : M σ Unit := fun s => ([], Res.ok () (f s))

/-- An SDK call that does not touch the camera: logged, and either its value
or the exception it raised. -/
def sdkCall {σ α : Type} (c : Call) (r : Except GenericException α) : M σ α := fun s =>
  match r with
  | Except.ok a => ([Event.call c], Res.ok a s)
  | Except.error e => ([Event.call c, Event.raised e], Res.thrown e)

/-- A method call on `camera`: logged, and either the new camera state or the
exception it raised. -/
def cameraCall {Cam : Type} (c : Call) (op : Cam → Except GenericException Cam) :
    M (Vars Cam) Unit := fun s =>
  match op s.camera with
  | Except.ok cam => ([Event.call c], Res.ok () { s with camera := cam })
  | Except.error e => ([Event.call c, Event.raised e], Res.thrown e)

/-- `p[i]` for a `uint8_t*` into a buffer: the byte, or undefined behaviour
past the end. -/
def readByte {σ : Type} (buffer : List Byte) (i : Nat) : M σ Byte := fun s =>
  match buffer.get? i with
  | some b => ([], Res.ok b s)
  | none => ([], Res.undefinedBehaviour)

/-- `(uint32_t)b` for a `uint8_t`. -/
def toUInt32 (b : Byte) : Nat := b.val % 2 ^ 32

/-! ## The program -/

/-- Line 24. -/
def c_countOfImagesToGrab : Nat := 1

/-- Line 74: `camera.RetrieveResult(5000, ptrGrabResult, TimeoutHandling_ThrowException)`. -/
def retrieveResult {Cam : Type} (sdk : Sdk Cam) : M (Vars Cam) Unit := fun s =>
  match sdk.RetrieveResult 5000 TimeoutHandling.ThrowException s.camera with
  | Except.ok (r, cam) =>
      ([Event.call (Call.RetrieveResult 5000 TimeoutHandling.ThrowException)],
        Res.ok () { s with camera := cam, ptrGrabResult := some r })
  | Except.error e =>
      ([Event.call (Call.RetrieveResult 5000 TimeoutHandling.ThrowException), Event.raised e],
        Res.thrown e)

/-- `ptrGrabResult->`: the object behind the pointer. -/
def derefGrabResult {Cam : Type} : M (Vars Cam) GrabResult := fun s =>
  match s.ptrGrabResult with
  | some r => ([], Res.ok r s)
  | none => ([], Res.undefinedBehaviour)

/-- Lines 90 to 103: bring the grabbed image into `myRGBImage`. -/
def obtainRGB {Cam : Type} (sdk : Sdk Cam) (pixelType : PixelType) : M (Vars Cam) Unit := do
  if sdk.IsRGB pixelType == false then
    modifyVars (fun s => { s with OutputPixelFormat := PixelType.RGB8packed })
    let fmt ← readVar (fun s => s.OutputPixelFormat)
    let src ← derefGrabResult
    let img ← sdkCall (Call.Convert fmt src.image) (sdk.Convert fmt src.image)
    modifyVars (fun s => { s with myRGBImage := img })
  else
    let src ← derefGrabResult
    sdkCall (Call.AttachGrabResultBuffer src) (sdk.AttachGrabResultBuffer src)
    modifyVars (fun s => { s with myRGBImage := src.image })

/-- Lines 107 to 116, method #1: the first three bytes of `myRGBImage`. -/
def method1 {Cam : Type} : M (Vars Cam) Unit := do
  let pBuffer ← readVar (fun s => s.myRGBImage.buffer)
  cout Output.blank
  cout Output.accessingRGB
  let r ← readByte pBuffer 0
  cout (Output.redValue (toUInt32 r))
  let g ← readByte pBuffer 1
  cout (Output.greenValue (toUInt32 g))
  let b ← readByte pBuffer 2
  cout (Output.blueValue (toUInt32 b))

/-- Lines 120 to 129: convert `myRGBImage` to planar and take the three planes. -/
def splitPlanes {Cam : Type} (sdk : Sdk Cam) : M (Vars Cam) Unit := do
  modifyVars (fun s => { s with OutputPixelFormat := PixelType.RGB8planar })
  let fmt ← readVar (fun s => s.OutputPixelFormat)
  let src ← readVar (fun s => s.myRGBImage)
  let planar ← sdkCall (Call.Convert fmt src) (sdk.Convert fmt src)
  modifyVars (fun s => { s with myRGBPlanarImage := planar })
  let planar ← readVar (fun s => s.myRGBPlanarImage)
  let red ← sdkCall (Call.GetPlane planar 0) (sdk.GetPlane planar 0)
  modifyVars (fun s => { s with myRedImage := red })
  let planar ← readVar (fun s => s.myRGBPlanarImage)
  let green ← sdkCall (Call.GetPlane planar 1) (sdk.GetPlane planar 1)
  modifyVars (fun s => { s with myGreenImage := green })
  let planar ← readVar (fun s => s.myRGBPlanarImage)
  let blue ← sdkCall (Call.GetPlane planar 2) (sdk.GetPlane planar 2)
  modifyVars (fun s => { s with myBlueImage := blue })

/-- Lines 131 to 140: the first byte of each plane. -/
def reportPlanes {Cam : Type} : M (Vars Cam) Unit := do
  let pRed ← readVar (fun s => s.myRedImage.buffer)
  let pGreen ← readVar (fun s => s.myGreenImage.buffer)
  let pBlue ← readVar (fun s => s.myBlueImage.buffer)
  cout Output.blank
  cout Output.accessingPlanar
  let r ← readByte pRed 0
  cout (Output.redPlane (toUInt32 r))
  let g ← readByte pGreen 0
  cout (Output.greenPlane (toUInt32 g))
  let b ← readByte pBlue 0
  cout (Output.bluePlane (toUInt32 b))

/-- `CImagePersistence::Save(ImageFileFormat_Bmp, filename, image)` on a variable. -/
def saveBmp {Cam : Type} (sdk : Sdk Cam) (filename : String) (image : Vars Cam → Image) :
    M (Vars Cam) Unit := do
  let img ← readVar image
  sdkCall (Call.Save ImageFileFormat.Bmp filename img) (sdk.Save ImageFileFormat.Bmp filename img)

/-- `Pylon::DisplayImage(winIndex, image)` on a variable. -/
def displayImage {Cam : Type} (sdk : Sdk Cam) (winIndex : Nat) (image : Vars Cam → Image) :
    M (Vars Cam) Unit := do
  let img ← readVar image
  sdkCall (Call.DisplayImage winIndex img) (sdk.DisplayImage winIndex img)

/-- Lines 142 to 146: save the four images. -/
def saveImages {Cam : Type} (sdk : Sdk Cam) : M (Vars Cam) Unit := do
  saveBmp sdk "RGB.bmp" (fun s => s.myRGBImage)
  saveBmp sdk "red_plane.bmp" (fun s => s.myRedImage)
  saveBmp sdk "green_plane.bmp" (fun s => s.myGreenImage)
  saveBmp sdk "blue_plane.bmp" (fun s => s.myBlueImage)

/-- Lines 148 to 152: display the four images. -/
def displayImages {Cam : Type} (sdk : Sdk Cam) : M (Vars Cam) Unit := do
  displayImage sdk 0 (fun s => s.myRGBImage)
  displayImage sdk 1 (fun s => s.myRedImage)
  displayImage sdk 2 (fun s => s.myGreenImage)
  displayImage sdk 3 (fun s => s.myBlueImage)

/-- Lines 118 to 153, method #2: convert to planar, split, report, save, display. -/
def method2 {Cam : Type} (sdk : Sdk Cam) : M (Vars Cam) Unit := do
  splitPlanes sdk
  reportPlanes
  saveImages sdk
  displayImages sdk

/-- Lines 76 to 159: what the loop body does with the retrieved grab result. -/
def processFrame {Cam : Type} (sdk : Sdk Cam) : M (Vars Cam) Unit := do
  let r ← derefGrabResult
  if r.grabSucceeded then
    let pixelType := r.image.pixelType
    cout (Output.pixelFormat (sdk.GetNameByPixelType pixelType))
    if sdk.IsColorImage pixelType == false then
      cout Output.notColor
    else
      obtainRGB sdk pixelType
      method1
      method2 sdk
  else
    cout (Output.grabError r.errorCode r.errorDescription)

/-- Lines 72 to 159: the body of the grab loop. -/
def loopBody {Cam : Type} (sdk : Sdk Cam) : M (Vars Cam) Unit := do
  retrieveResult sdk
  processFrame sdk

/-- Lines 70 to 160: `while (camera.IsGrabbing()) { ... }`, with a budget of
condition checks. -/
def grabLoop {Cam : Type} (sdk : Sdk Cam) : Nat → M (Vars Cam) Unit
  | 0 => fun _ => ([], Res.outOfFuel)
  | fuel + 1 => do
    let grabbing ← readVar (fun s => sdk.IsGrabbing s.camera)
    emit (Event.isGrabbing grabbing)
    if grabbing then
      loopBody sdk
      grabLoop sdk fuel
    else
      pure ()

/-- Lines 44 to 160: the `try` block once the camera object exists. -/
def withCamera {Cam : Type} (sdk : Sdk Cam) (fuel : Nat) : M (Vars Cam) Unit := do
  let modelName ← readVar (fun s => sdk.GetModelName s.camera)
  cout (Output.usingDevice modelName)
  cameraCall Call.Open sdk.Open
  cameraCall (Call.FromString "PixelFormat" "RGB8") (sdk.FromString "PixelFormat" "RGB8")
  cameraCall (Call.StartGrabbing c_countOfImagesToGrab) (sdk.StartGrabbing c_countOfImagesToGrab)
  grabLoop sdk fuel

/-- The variables as declared: a camera, an empty grab result pointer, a fresh
converter and five default constructed images. -/
def initialVars {Cam : Type} (sdk : Sdk Cam) (cam : Cam) : Vars Cam :=
  { camera := cam, ptrGrabResult := none, OutputPixelFormat := sdk.defaultOutputPixelFormat,
    myRGBImage := Image.empty, myRGBPlanarImage := Image.empty, myRedImage := Image.empty,
    myGreenImage := Image.empty, myBlueImage := Image.empty }

/-- Lines 35 to 161: the `try` block. -/
def tryBlock {Cam : Type} (sdk : Sdk Cam) (fuel : Nat) : List Event × Res (Vars Cam) Unit :=
  match sdk.CreateFirstDevice "21824812" with
  | Except.error e =>
      ([Event.call (Call.CreateFirstDevice "21824812"), Event.raised e], Res.thrown e)
  | Except.ok cam =>
      (Event.call (Call.CreateFirstDevice "21824812") :: (withCamera sdk fuel (initialVars sdk cam)).1,
        (withCamera sdk fuel (initialVars sdk cam)).2)

/-- `cin.get()`: the next byte as an `int`, or `EOF` (-1) at the end of input,
and the input that remains. -/
def cinGet : List Byte → Int × List Byte
  | [] => (-1, [])
  | b :: rest => ((b.val : Int), rest)

/-- Line 172: `while (cin.get() != '\n');` with a budget of reads.  Returns the
reads made and whether the loop was left. -/
def waitOnExit : Nat → List Byte → List Event × Bool
  | 0, _ => ([], false)
  | fuel + 1, input =>
    if (cinGet input).1 != 10 then
      (Event.cinGet (cinGet input).1 :: (waitOnExit fuel (cinGet input).2).1,
        (waitOnExit fuel (cinGet input).2).2)
    else
      ([Event.cinGet (cinGet input).1], true)

/-- How `main` ends. -/
inductive Outcome where
  /-- `return exitCode`. -/
  | returned (exitCode : Int)
  /-- Undefined behaviour was reached. -/
  | undefinedBehaviour
  /-- No `return` within the budget. -/
  | noReturn
deriving DecidableEq, Repr

/-- A run of `main`. -/
structure Run where
  trace : List Event
  outcome : Outcome
deriving DecidableEq, Repr

/-- Lines 170 to 174: prompt, wait for a newline, return. -/
def waitAndReturn (exitCode : Int) (stdin : List Byte) (fuel : Nat) (t : List Event) : Run :=
  { trace := t ++ Event.cerr Output.pressEnter :: (waitOnExit fuel stdin).1,
    outcome := if (waitOnExit fuel stdin).2 then Outcome.returned exitCode else Outcome.noReturn }

/-- Lines 26 to 175. -/
def main {Cam : Type} (sdk : Sdk Cam) (stdin : List Byte) (fuel : Nat) : Run :=
  match tryBlock sdk fuel with
  | (t, Res.ok _ _) => waitAndReturn 0 stdin fuel t
  | (t, Res.thrown e) =>
      waitAndReturn 1 stdin fuel (t ++ [Event.cerr (Output.exceptionOccurred e.description)])
  | (t, Res.undefinedBehaviour) => { trace := t, outcome := Outcome.undefinedBehaviour }
  | (t, Res.outOfFuel) => { trace := t, outcome := Outcome.noReturn }

/-! ## Vocabulary of the statements -/

/-- The event records an exception raised by an SDK call. -/
def isRaised : Event → Bool
  | Event.raised _ => true
  | _ => false

/-- The event is a call of `RetrieveResult`. -/
def isRetrieve : Event → Bool
  | Event.call (Call.RetrieveResult _ _) => true
  | _ => false

/-- The event is a call of the format converter. -/
def isConvert : Event → Bool
  | Event.call (Call.Convert _ _) => true
  | _ => false

/-- The statement ended by a propagating exception. -/
def Res.isThrown {σ α : Type} : Res σ α → Bool
  | Res.thrown _ => true
  | _ => false

/-- Events of method #1 (lines 111 to 115). -/
def method1Event : Event → Bool
  | Event.cout Output.blank => true
  | Event.cout Output.accessingRGB => true
  | Event.cout (Output.redValue _) => true
  | Event.cout (Output.greenValue _) => true
  | Event.cout (Output.blueValue _) => true
  | _ => false

/-- Events of method #2 (lines 121 to 152) when `myRGBImage` holds `img`: the only
converter call goes to planar RGB8 with `img` as source, planes 0, 1, 2 are
taken, the files are bitmaps with the four names of the source, `RGB.bmp` and
window 0 receive `img`. -/
def method2Event (img : Image) : Event → Bool
  | Event.call (Call.Convert fmt src) => fmt == PixelType.RGB8planar && src == img
  | Event.call (Call.GetPlane _ k) => decide (k < 3)
  | Event.call (Call.Save fmt name p) =>
      fmt == ImageFileFormat.Bmp &&
        ((name == "RGB.bmp" && p == img) || name == "red_plane.bmp" ||
          name == "green_plane.bmp" || name == "blue_plane.bmp")
  | Event.call (Call.DisplayImage k p) => (k == 0 && p == img) || k == 1 || k == 2 || k == 3
  | Event.raised _ => true
  | Event.cout Output.blank => true
  | Event.cout Output.accessingPlanar => true
  | Event.cout (Output.redPlane _) => true
  | Event.cout (Output.greenPlane _) => true
  | Event.cout (Output.bluePlane _) => true
  | _ => false

/-- Events of lines 105 to 153 when `myRGBImage` holds `img`. -/
def accessEvent (img : Image) (ev : Event) : Bool := method1Event ev || method2Event img ev

/-- Events that stem from the processing of one retrieved frame (lines 76 to 159):
no camera call, no loop condition, nothing on `cerr` or from `cin`. -/
def isFrameEvent : Event → Bool
  | Event.call (Call.Convert _ _) => true
  | Event.call (Call.AttachGrabResultBuffer _) => true
  | Event.call (Call.GetPlane _ _) => true
  | Event.call (Call.Save _ _ _) => true
  | Event.call (Call.DisplayImage _ _) => true
  | Event.raised _ => true
  | Event.cout _ => true
  | _ => false

/-- The event is a call on an image: a conversion, the attaching of a grab
result buffer, a plane extraction, a save or a display. -/
def isImageWork : Event → Bool
  | Event.call (Call.Convert _ _) => true
  | Event.call (Call.AttachGrabResultBuffer _) => true
  | Event.call (Call.GetPlane _ _) => true
  | Event.call (Call.Save _ _ _) => true
  | Event.call (Call.DisplayImage _ _) => true
  | _ => false

/-- The event is a conversion, a save or a display. -/
def isConvertSaveDisplay : Event → Bool
  | Event.call (Call.Convert _ _) => true
  | Event.call (Call.Save _ _ _) => true
  | Event.call (Call.DisplayImage _ _) => true
  | _ => false

/-- A statement run from `s`: every event it emits satisfies `E`; it ends by an
exception exactly when it logged a raise; on normal completion `Q` holds;
undefined behaviour only if `U`; the loop budget is never the reason to stop. -/
def StepAt {σ α : Type} (U : Prop) (E : Event → Prop) (m : M σ α) (s : σ)
    (Q : α → σ → Prop) : Prop :=
  (∀ ev ∈ (m s).1, E ev) ∧
  ((m s).2.isThrown = true ↔ ∃ ev ∈ (m s).1, isRaised ev = true) ∧
  (match (m s).2 with
    | Res.ok a t => Q a t
    | Res.thrown _ => True
    | Res.undefinedBehaviour => U
    | Res.outOfFuel => False)

/-- The events of the `try` block up to the first loop condition when every call
succeeds (lines 41 to 70). -/
def setupEvents (modelName : String) : List Event :=
  [Event.call (Call.CreateFirstDevice "21824812"), Event.cout (Output.usingDevice modelName),
    Event.call Call.Open, Event.call (Call.FromString "PixelFormat" "RGB8"),
    Event.call (Call.StartGrabbing c_countOfImagesToGrab)]

/-- The one `RetrieveResult` call of the source (line 74). -/
def retrieveCall : Event :=
  Event.call (Call.RetrieveResult 5000 TimeoutHandling.ThrowException)

/-- The processing of frame `r` reads within its buffers.  When `r` succeeded in
a colour encoding: the packed RGB image `img` that `main` gets from it (the
frame's own image once attached, or the result of its conversion to packed RGB8)
holds the three bytes read by lines 113 to 115, and the three planes that `main`
extracts from the planar conversion of `img` hold the byte read by lines 134 to
136. -/
def FrameSafe {Cam : Type} (sdk : Sdk Cam) (r : GrabResult) : Prop :=
  r.grabSucceeded = true → sdk.IsColorImage r.image.pixelType = true →
    ∀ img, ((sdk.IsRGB r.image.pixelType = true ∧
          sdk.AttachGrabResultBuffer r = Except.ok () ∧ img = r.image) ∨
        (sdk.IsRGB r.image.pixelType = false ∧
          sdk.Convert PixelType.RGB8packed r.image = Except.ok img)) →
      3 ≤ img.buffer.length ∧
      ∀ pl red green blue, sdk.Convert PixelType.RGB8planar img = Except.ok pl →
        sdk.GetPlane pl 0 = Except.ok red → sdk.GetPlane pl 1 = Except.ok green →
        sdk.GetPlane pl 2 = Except.ok blue →
        1 ≤ red.buffer.length ∧ 1 ≤ green.buffer.length ∧ 1 ≤ blue.buffer.length

/-- Two endings are alike: both complete with the same value and related
variables, or both propagate the same exception, or both are undefined, or both
ran out of budget. -/
def ResRel {σ α : Type} (Q : α → σ → σ → Prop) : Res σ α → Res σ α → Prop
  | Res.ok a s1, Res.ok b s2 => a = b ∧ Q a s1 s2
  | Res.thrown e1, Res.thrown e2 => e1 = e2
  | Res.undefinedBehaviour, Res.undefinedBehaviour => True
  | Res.outOfFuel, Res.outOfFuel => True
  | _, _ => False

/-- Run from two variable sets, a statement emits the same events and ends alike. -/
def RelAt {σ α : Type} (m : M σ α) (s1 s2 : σ) (Q : α → σ → σ → Prop) : Prop :=
  (m s1).1 = (m s2).1 ∧ ResRel Q (m s1).2 (m s2).2

/-! ## Contracts of the SDK and assumptions on it -/

/-- Modelled from the spec: the Camera Session of section 4.2, which is SDK code.
`startGrabbing(maxFrames)` begins a bounded sequence, `isGrabbing` is true while
the sequence is not exhausted, and every retrieved frame (failed ones included)
uses up one of the `maxFrames`; `remaining` counts the frames still to come. -/
structure SessionContract {Cam : Type} (sdk : Sdk Cam) (remaining : Cam → Nat) : Prop where
  start : ∀ n c c2, sdk.StartGrabbing n c = Except.ok c2 → remaining c2 = n
  grabbing : ∀ c, sdk.IsGrabbing c = decide (0 < remaining c)
  retrieve : ∀ t h c r c2, sdk.RetrieveResult t h c = Except.ok (r, c2) →
    remaining c2 = remaining c - 1

/-- Modelled from the spec: channel `k` of a packed RGB8 buffer, the samples at
positions `k`, `k + 3`, `k + 6`, ... -/
def channel (k : Nat) : List Byte → List Byte
  | r :: g :: b :: rest => (if k = 0 then r else if k = 1 then g else b) :: channel k rest
  | _ => []

/-- Modelled from the spec: de-interleaving a packed RGB8 buffer into the red,
the green and the blue plane, one after the other. -/
def deinterleave (buffer : List Byte) : List Byte :=
  channel 0 buffer ++ channel 1 buffer ++ channel 2 buffer

/-- Modelled from the spec: the bytes of plane `k` of a planar image, `width × height`
bytes from offset `k × width × height`. -/
def planeBytes (img : Image) (k : Nat) : List Byte :=
  (img.buffer.drop (k * (img.width * img.height))).take (img.width * img.height)

/-- Modelled from the spec: the conversion to planar RGB8 of a packed RGB8 image
of `width × height ≥ 1` pixels, whose buffer holds `width × height × 3` bytes,
gives a planar RGB8 image of the same size whose buffer is the de-interleaved
source buffer; and `GetPlane(k)`, for `k` among 0, 1, 2 and a planar RGB8 image
whose buffer holds `width × height × 3` bytes, returns plane `k` (sections 4.4,
4.5 and the round-trip property of section 8).  Nothing is required for other
sources, images or indices. -/
structure PlanarContract {Cam : Type} (sdk : Sdk Cam) : Prop where
  convert : ∀ src pl, src.pixelType = PixelType.RGB8packed →
    1 ≤ src.width * src.height → src.buffer.length = src.width * src.height * 3 →
    sdk.Convert PixelType.RGB8planar src = Except.ok pl →
    pl.pixelType = PixelType.RGB8planar ∧ pl.width = src.width ∧ pl.height = src.height ∧
      pl.buffer = deinterleave src.buffer
  getPlane : ∀ img k p, img.pixelType = PixelType.RGB8planar → k < 3 →
    img.buffer.length = img.width * img.height * 3 →
    sdk.GetPlane img k = Except.ok p → p.buffer = planeBytes img k

/-! ## A scripted SDK for the examples -/

/-- State of the scripted camera: frames left in the current grab and frames
delivered so far. -/
structure SimCam where
  remaining : Nat
  delivered : Nat
deriving DecidableEq, Repr

/-- A stand-in for demosaicing: every sample becomes a gray pixel, cut or padded
to `n` bytes. -/
def simDemosaic (n : Nat) (buffer : List Byte) : List Byte :=
  ((buffer.map (fun b => [b, b, b])).flatten ++ List.replicate n 0).take n

/-- A scripted SDK: `attached` are the serial numbers of the devices present and
`script` the outcomes of the successive `RetrieveResult` calls (a timeout once the
script is used up).  Pixel type `other 0` stands for a mono encoding and `other 1`
for a Bayer encoding. -/
def simSdk (attached : List String) (script : List (Except GenericException GrabResult)) :
    Sdk SimCam :=
  { CreateFirstDevice := fun serial =>
      if serial ∈ attached then Except.ok { remaining := 0, delivered := 0 }
      else Except.error { description := "No device is available" }
    GetModelName := fun _ => "acA1920-40uc"
    Open := fun c => Except.ok c
    FromString := fun _ _ c => Except.ok c
    StartGrabbing := fun n c => Except.ok { c with remaining := n }
    IsGrabbing := fun c => decide (0 < c.remaining)
    RetrieveResult := fun _ _ c =>
      match script.get? c.delivered with
      | none => Except.error { description := "Grab timed out" }
      | some (Except.error e) => Except.error e
      | some (Except.ok r) =>
          Except.ok (r, { remaining := c.remaining - 1, delivered := c.delivered + 1 })
    GetNameByPixelType := fun p =>
      match p with
      | PixelType.RGB8packed => "RGB8"
      | PixelType.RGB8planar => "RGB8Planar"
      | PixelType.Undefined => "Undefined"
      | PixelType.other 0 => "Mono8"
      | PixelType.other _ => "BayerRG8"
    IsColorImage := fun p =>
      p == PixelType.RGB8packed || p == PixelType.RGB8planar || p == PixelType.other 1
    IsRGB := fun p => p == PixelType.RGB8packed || p == PixelType.RGB8planar
    defaultOutputPixelFormat := PixelType.Undefined
    Convert := fun fmt src =>
      match fmt with
      | PixelType.RGB8packed =>
          if 1 ≤ src.width * src.height then
            Except.ok { pixelType := PixelType.RGB8packed, width := src.width, height := src.height,
                        buffer := simDemosaic (src.width * src.height * 3) src.buffer }
          else Except.error { description := "Invalid image" }
      | PixelType.RGB8planar =>
          if 1 ≤ src.width * src.height ∧ src.buffer.length = src.width * src.height * 3 then
            Except.ok { pixelType := PixelType.RGB8planar, width := src.width, height := src.height,
                        buffer := deinterleave src.buffer }
          else Except.error { description := "Invalid image" }
      | _ => Except.error { description := "Unsupported output format" }
    AttachGrabResultBuffer := fun _ => Except.ok ()
    GetPlane := fun img k =>
      if k < 3 ∧ 1 ≤ (planeBytes img k).length then
        Except.ok { pixelType := PixelType.other 0, width := img.width, height := img.height,
                    buffer := planeBytes img k }
      else Except.error { description := "Invalid plane" }
    Save := fun _ _ _ => Except.ok ()
    DisplayImage := fun _ _ => Except.ok () }

/-- A successful 2 × 1 frame in packed RGB8. -/
def rgbFrame : GrabResult :=
  { grabSucceeded := true,
    image := { pixelType := PixelType.RGB8packed, width := 2, height := 1,
               buffer := [10, 20, 30, 40, 50, 60] },
    errorCode := 0, errorDescription := "" }

/-- A successful 2 × 2 frame in a Bayer encoding. -/
def bayerFrame : GrabResult :=
  { grabSucceeded := true,
    image := { pixelType := PixelType.other 1, width := 2, height := 2, buffer := [7, 8, 9, 11] },
    errorCode := 0, errorDescription := "" }

/-- A successful 2 × 1 frame in a mono encoding. -/
def monoFrame : GrabResult :=
  { grabSucceeded := true,
    image := { pixelType := PixelType.other 0, width := 2, height := 1, buffer := [5, 6] },
    errorCode := 0, errorDescription := "" }

/-- A successful frame in packed RGB8 with no pixel: 0 × 0, an empty buffer. -/
def emptyRgbFrame : GrabResult :=
  { grabSucceeded := true,
    image := { pixelType := PixelType.RGB8packed, width := 0, height := 0, buffer := [] },
    errorCode := 0, errorDescription := "" }

/-- The planar image the scripted converter makes of `rgbFrame`. -/
def rgbPlanar : Image :=
  { pixelType := PixelType.RGB8planar, width := 2, height := 1, buffer := [10, 40, 20, 50, 30, 60] }

/-- Plane `k` of `rgbPlanar` as the scripted SDK returns it. -/
def rgbPlane (k : Nat) : Image :=
  { pixelType := PixelType.other 0, width := 2, height := 1, buffer := planeBytes rgbPlanar k }

/-- The scripted SDK with the camera of `main` attached. -/
def sim (script : List (Except GenericException GrabResult)) : Sdk SimCam :=
  simSdk ["21824812"] script

/-- The scripted SDK with an `AttachGrabResultBuffer` that raises. -/
def simAttachRaises (script : List (Except GenericException GrabResult)) : Sdk SimCam :=
  { sim script with
    AttachGrabResultBuffer := fun _ => Except.error { description := "Cannot attach the buffer" } }

/-- The variables of `main` when the scripted camera is about to deliver its
first frame. -/
def simVars (script : List (Except GenericException GrabResult)) : Vars SimCam :=
  initialVars (sim script) { remaining := 1, delivered := 0 }

/-- Variables as a round on `bayerFrame` leaves them, with the scripted camera
about to deliver its third frame. -/
def usedVars : Vars SimCam :=
  { camera := { remaining := 1, delivered := 2 },
    ptrGrabResult := some bayerFrame,
    OutputPixelFormat := PixelType.RGB8planar,
    myRGBImage := { pixelType := PixelType.RGB8packed, width := 2, height := 2,
                    buffer := [7, 7, 7, 8, 8, 8, 9, 9, 9, 11, 11, 11] },
    myRGBPlanarImage := { pixelType := PixelType.RGB8planar, width := 2, height := 2,
                          buffer := [7, 8, 9, 11, 7, 8, 9, 11, 7, 8, 9, 11] },
    myRedImage := { pixelType := PixelType.other 0, width := 2, height := 2,
                    buffer := [7, 8, 9, 11] },
    myGreenImage := { pixelType := PixelType.other 0, width := 2, height := 2,
                      buffer := [7, 8, 9, 11] },
    myBlueImage := { pixelType := PixelType.other 0, width := 2, height := 2,
                     buffer := [7, 8, 9, 11] } }

/-! # Proofs -/

variable {Cam : Type}

/-! ## Sequencing -/

theorem bind_apply {σ α β : Type} (m : M σ α) (f : α → M σ β) (s : σ) :
    (m >>= f) s = M.bind m f s := rfl

theorem bind_ok {σ α β : Type} {m : M σ α} {f : α → M σ β} {s s1 : σ} {t : List Event} {a : α}
    (h : m s = (t, Res.ok a s1)) : (m >>= f) s = (t ++ (f a s1).1, (f a s1).2) := by
  simp [bind_apply, M.bind, h]

theorem bind_thrown {σ α β : Type} {m : M σ α} {f : α → M σ β} {s : σ} {t : List Event}
    {e : GenericException} (h : m s = (t, Res.thrown e)) : (m >>= f) s = (t, Res.thrown e) := by
  simp [bind_apply, M.bind, h]

theorem bind_undefined {σ α β : Type} {m : M σ α} {f : α → M σ β} {s : σ} {t : List Event}
    (h : m s = (t, Res.undefinedBehaviour)) : (m >>= f) s = (t, Res.undefinedBehaviour) := by
  simp [bind_apply, M.bind, h]

theorem bind_outOfFuel {σ α β : Type} {m : M σ α} {f : α → M σ β} {s : σ} {t : List Event}
    (h : m s = (t, Res.outOfFuel)) : (m >>= f) s = (t, Res.outOfFuel) := by
  simp [bind_apply, M.bind, h]

/-! ## Rules of the one-run judgement -/

theorem stepAt_bind {σ α β : Type} {U : Prop} {E : Event → Prop} {m : M σ α} {f : α → M σ β}
    {s : σ} {Q : α → σ → Prop} {R : β → σ → Prop}
    (hm : StepAt U E m s Q) (hf : ∀ a t, Q a t → StepAt U E (f a) t R) :
    StepAt U E (m >>= f) s R := by
  obtain ⟨hE, hS, hQ⟩ := hm
  rcases h : m s with ⟨t, r⟩
  rw [h] at hE hS hQ
  simp only at hE hS hQ
  unfold StepAt
  cases r with
  | ok a s1 =>
    obtain ⟨fE, fS, fQ⟩ := hf a s1 hQ
    rw [bind_ok h]
    refine ⟨?_, ?_, fQ⟩
    · intro ev hev
      rcases List.mem_append.1 hev with h1 | h1
      · exact hE ev h1
      · exact fE ev h1
    · have hno : ¬ ∃ ev ∈ t, isRaised ev = true := fun hx => by simpa [Res.isThrown] using hS.2 hx
      constructor
      · intro hx
        obtain ⟨ev, hev, hr⟩ := fS.1 hx
        exact ⟨ev, List.mem_append.2 (Or.inr hev), hr⟩
      · rintro ⟨ev, hev, hr⟩
        rcases List.mem_append.1 hev with h1 | h1
        · exact absurd ⟨ev, h1, hr⟩ hno
        · exact fS.2 ⟨ev, h1, hr⟩
  | thrown e => rw [bind_thrown h]; exact ⟨hE, hS, trivial⟩
  | undefinedBehaviour => rw [bind_undefined h]; exact ⟨hE, hS, hQ⟩
  | outOfFuel => exact absurd hQ (by simp)

theorem stepAt_mono {σ α : Type} {U V : Prop} {E F : Event → Prop} {m : M σ α} {s : σ}
    {Q R : α → σ → Prop} (hm : StepAt U E m s Q) (hU : U → V) (hE : ∀ ev, E ev → F ev)
    (hQ : ∀ a t, Q a t → R a t) : StepAt V F m s R := by
  obtain ⟨h1, h2, h3⟩ := hm
  refine ⟨fun ev hev => hE ev (h1 ev hev), h2, ?_⟩
  cases h : (m s).2 <;> rw [h] at h3 <;> simp_all

theorem stepAt_readVar {σ α : Type} {U : Prop} {E : Event → Prop} (f : σ → α) (s : σ) :
    StepAt U E (readVar f) s (fun a t => f s = a ∧ s = t) := by
  refine ⟨?_, ?_, ?_⟩ <;> simp [readVar, Res.isThrown]

theorem stepAt_modifyVars {σ : Type} {U : Prop} {E : Event → Prop} (g : σ → σ) (s : σ) :
    StepAt U E (modifyVars g) s (fun _ t => g s = t) := by
  refine ⟨?_, ?_, ?_⟩ <;> simp [modifyVars, Res.isThrown]

theorem stepAt_cout {σ : Type} {U : Prop} {E : Event → Prop} (o : Output) (s : σ)
    (h : E (Event.cout o)) : StepAt U E (cout o) s (fun _ t => s = t) := by
  refine ⟨?_, ?_, ?_⟩ <;> simp [cout, emit, Res.isThrown, isRaised, h]

theorem stepAt_sdkCall {σ α : Type} {U : Prop} {E : Event → Prop} (c : Call)
    (r : Except GenericException α) (s : σ) (h : E (Event.call c)) (hr : ∀ e, E (Event.raised e)) :
    StepAt U E (sdkCall c r) s (fun a t => r = Except.ok a ∧ s = t) := by
  cases r with
  | ok a => refine ⟨?_, ?_, ?_⟩ <;> simp [sdkCall, Res.isThrown, isRaised, h]
  | error e => refine ⟨?_, ?_, ?_⟩ <;> simp [sdkCall, Res.isThrown, isRaised, h, hr]

theorem stepAt_readByte {σ : Type} {U : Prop} {E : Event → Prop} (buf : List Byte) (i : Nat)
    (s : σ) (h : U ∨ i < buf.length) :
    StepAt U E (readByte buf i) s (fun b t => buf.get? i = some b ∧ s = t) := by
  unfold readByte
  cases hb : buf.get? i with
  | some b => refine ⟨?_, ?_, ?_⟩ <;> simp [Res.isThrown]
  | none =>
    refine ⟨?_, ?_, ?_⟩ <;> simp [Res.isThrown]
    rcases h with h | h
    · exact h
    · exact absurd (List.get?_eq_none.1 hb) (by omega)

/-! ## The two access methods, statement by statement -/

theorem method1_step (U : Prop) (s : Vars Cam) (h : U ∨ 3 ≤ s.myRGBImage.buffer.length) :
    StepAt U (fun ev => method1Event ev = true) method1 s (fun _ t => s = t) := by
  unfold method1
  refine stepAt_bind (stepAt_readVar _ _) ?_
  rintro _ _ ⟨rfl, rfl⟩
  refine stepAt_bind (stepAt_cout _ _ rfl) ?_
  rintro _ _ rfl
  refine stepAt_bind (stepAt_cout _ _ rfl) ?_
  rintro _ _ rfl
  refine stepAt_bind (stepAt_readByte _ 0 _ (h.imp id (fun h => by omega))) ?_
  rintro _ _ ⟨_, rfl⟩
  refine stepAt_bind (stepAt_cout _ _ rfl) ?_
  rintro _ _ rfl
  refine stepAt_bind (stepAt_readByte _ 1 _ (h.imp id (fun h => by omega))) ?_
  rintro _ _ ⟨_, rfl⟩
  refine stepAt_bind (stepAt_cout _ _ rfl) ?_
  rintro _ _ rfl
  refine stepAt_bind (stepAt_readByte _ 2 _ (h.imp id (fun h => by omega))) ?_
  rintro _ _ ⟨_, rfl⟩
  exact stepAt_cout _ _ rfl

theorem splitPlanes_step (sdk : Sdk Cam) (U : Prop) (s : Vars Cam) :
    StepAt U (fun ev => method2Event s.myRGBImage ev = true) (splitPlanes sdk) s
      (fun _ t => t.camera = s.camera ∧ t.myRGBImage = s.myRGBImage ∧
        ∃ pl, sdk.Convert PixelType.RGB8planar s.myRGBImage = Except.ok pl ∧
          sdk.GetPlane pl 0 = Except.ok t.myRedImage ∧
          sdk.GetPlane pl 1 = Except.ok t.myGreenImage ∧
          sdk.GetPlane pl 2 = Except.ok t.myBlueImage) := by
  unfold splitPlanes
  refine stepAt_bind (stepAt_modifyVars _ _) ?_
  rintro _ _ rfl
  refine stepAt_bind (stepAt_readVar _ _) ?_
  rintro _ _ ⟨rfl, rfl⟩
  refine stepAt_bind (stepAt_readVar _ _) ?_
  rintro _ _ ⟨rfl, rfl⟩
  refine stepAt_bind (stepAt_sdkCall _ _ _ (by simp [method2Event]) (fun _ => rfl)) ?_
  rintro planar _ ⟨hconv, rfl⟩
  refine stepAt_bind (stepAt_modifyVars _ _) ?_
  rintro _ _ rfl
  refine stepAt_bind (stepAt_readVar _ _) ?_
  rintro _ _ ⟨rfl, rfl⟩
  refine stepAt_bind (stepAt_sdkCall _ _ _ (by simp [method2Event]) (fun _ => rfl)) ?_
  rintro red _ ⟨hred, rfl⟩
  refine stepAt_bind (stepAt_modifyVars _ _) ?_
  rintro _ _ rfl
  refine stepAt_bind (stepAt_readVar _ _) ?_
  rintro _ _ ⟨rfl, rfl⟩
  refine stepAt_bind (stepAt_sdkCall _ _ _ (by simp [method2Event]) (fun _ => rfl)) ?_
  rintro green _ ⟨hgreen, rfl⟩
  refine stepAt_bind (stepAt_modifyVars _ _) ?_
  rintro _ _ rfl
  refine stepAt_bind (stepAt_readVar _ _) ?_
  rintro _ _ ⟨rfl, rfl⟩
  refine stepAt_bind (stepAt_sdkCall _ _ _ (by simp [method2Event]) (fun _ => rfl)) ?_
  rintro blue _ ⟨hblue, rfl⟩
  refine stepAt_mono (stepAt_modifyVars _ _) id (fun _ h => h) ?_
  rintro _ _ rfl
  exact ⟨rfl, rfl, planar, hconv, hred, hgreen, hblue⟩

theorem reportPlanes_step (U : Prop) (img : Image) (s : Vars Cam)
    (h : U ∨ (1 ≤ s.myRedImage.buffer.length ∧ 1 ≤ s.myGreenImage.buffer.length ∧
      1 ≤ s.myBlueImage.buffer.length)) :
    StepAt U (fun ev => method2Event img ev = true) reportPlanes s (fun _ t => s = t) := by
  unfold reportPlanes
  refine stepAt_bind (stepAt_readVar _ _) ?_
  rintro _ _ ⟨rfl, rfl⟩
  refine stepAt_bind (stepAt_readVar _ _) ?_
  rintro _ _ ⟨rfl, rfl⟩
  refine stepAt_bind (stepAt_readVar _ _) ?_
  rintro _ _ ⟨rfl, rfl⟩
  refine stepAt_bind (stepAt_cout _ _ rfl) ?_
  rintro _ _ rfl
  refine stepAt_bind (stepAt_cout _ _ rfl) ?_
  rintro _ _ rfl
  refine stepAt_bind (stepAt_readByte _ 0 _ (h.imp id (fun h => by omega))) ?_
  rintro _ _ ⟨_, rfl⟩
  refine stepAt_bind (stepAt_cout _ _ rfl) ?_
  rintro _ _ rfl
  refine stepAt_bind (stepAt_readByte _ 0 _ (h.imp id (fun h => by omega))) ?_
  rintro _ _ ⟨_, rfl⟩
  refine stepAt_bind (stepAt_cout _ _ rfl) ?_
  rintro _ _ rfl
  refine stepAt_bind (stepAt_readByte _ 0 _ (h.imp id (fun h => by omega))) ?_
  rintro _ _ ⟨_, rfl⟩
  exact stepAt_cout _ _ rfl

theorem saveBmp_step (sdk : Sdk Cam) (U : Prop) (E : Event → Prop) (filename : String)
    (image : Vars Cam → Image) (s : Vars Cam)
    (h : E (Event.call (Call.Save ImageFileFormat.Bmp filename (image s))))
    (hr : ∀ e, E (Event.raised e)) :
    StepAt U E (saveBmp sdk filename image) s (fun _ t => s = t) := by
  unfold saveBmp
  refine stepAt_bind (stepAt_readVar _ _) ?_
  rintro _ _ ⟨rfl, rfl⟩
  exact stepAt_mono (stepAt_sdkCall _ _ _ h hr) id (fun _ h => h) (fun _ _ h => h.2)

theorem displayImage_step (sdk : Sdk Cam) (U : Prop) (E : Event → Prop) (winIndex : Nat)
    (image : Vars Cam → Image) (s : Vars Cam)
    (h : E (Event.call (Call.DisplayImage winIndex (image s))))
    (hr : ∀ e, E (Event.raised e)) :
    StepAt U E (displayImage sdk winIndex image) s (fun _ t => s = t) := by
  unfold displayImage
  refine stepAt_bind (stepAt_readVar _ _) ?_
  rintro _ _ ⟨rfl, rfl⟩
  exact stepAt_mono (stepAt_sdkCall _ _ _ h hr) id (fun _ h => h) (fun _ _ h => h.2)

theorem saveImages_step (sdk : Sdk Cam) (U : Prop) (s : Vars Cam) :
    StepAt U (fun ev => method2Event s.myRGBImage ev = true) (saveImages sdk) s
      (fun _ t => s = t) := by
  unfold saveImages
  refine stepAt_bind (saveBmp_step sdk U _ _ _ _ (by simp [method2Event]) (fun _ => rfl)) ?_
  rintro _ _ rfl
  refine stepAt_bind (saveBmp_step sdk U _ _ _ _ (by simp [method2Event]) (fun _ => rfl)) ?_
  rintro _ _ rfl
  refine stepAt_bind (saveBmp_step sdk U _ _ _ _ (by simp [method2Event]) (fun _ => rfl)) ?_
  rintro _ _ rfl
  exact saveBmp_step sdk U _ _ _ _ (by simp [method2Event]) (fun _ => rfl)

theorem displayImages_step (sdk : Sdk Cam) (U : Prop) (s : Vars Cam) :
    StepAt U (fun ev => method2Event s.myRGBImage ev = true) (displayImages sdk) s
      (fun _ t => s = t) := by
  unfold displayImages
  refine stepAt_bind (displayImage_step sdk U _ _ _ _ (by simp [method2Event]) (fun _ => rfl)) ?_
  rintro _ _ rfl
  refine stepAt_bind (displayImage_step sdk U _ _ _ _ (by simp [method2Event]) (fun _ => rfl)) ?_
  rintro _ _ rfl
  refine stepAt_bind (displayImage_step sdk U _ _ _ _ (by simp [method2Event]) (fun _ => rfl)) ?_
  rintro _ _ rfl
  exact displayImage_step sdk U _ _ _ _ (by simp [method2Event]) (fun _ => rfl)

theorem method2_step (sdk : Sdk Cam) (U : Prop) (s : Vars Cam)
    (h : U ∨ ∀ pl red green blue, sdk.Convert PixelType.RGB8planar s.myRGBImage = Except.ok pl →
      sdk.GetPlane pl 0 = Except.ok red → sdk.GetPlane pl 1 = Except.ok green →
      sdk.GetPlane pl 2 = Except.ok blue →
      1 ≤ red.buffer.length ∧ 1 ≤ green.buffer.length ∧ 1 ≤ blue.buffer.length) :
    StepAt U (fun ev => method2Event s.myRGBImage ev = true) (method2 sdk) s
      (fun _ t => t.camera = s.camera) := by
  unfold method2
  refine stepAt_bind (splitPlanes_step sdk U s) ?_
  rintro _ t ⟨hcam, himg, pl, hconv, hred, hgreen, hblue⟩
  refine stepAt_bind (reportPlanes_step U _ t
    (h.imp id (fun h => h pl _ _ _ hconv hred hgreen hblue))) ?_
  rintro _ _ rfl
  rw [← himg]
  refine stepAt_bind (saveImages_step sdk U t) ?_
  rintro _ _ rfl
  exact stepAt_mono (displayImages_step sdk U t) id (fun _ h => h) (fun _ _ h => h ▸ hcam)

theorem access_step (sdk : Sdk Cam) (U : Prop) (s : Vars Cam)
    (h : U ∨ (3 ≤ s.myRGBImage.buffer.length ∧
      ∀ pl red green blue, sdk.Convert PixelType.RGB8planar s.myRGBImage = Except.ok pl →
        sdk.GetPlane pl 0 = Except.ok red → sdk.GetPlane pl 1 = Except.ok green →
        sdk.GetPlane pl 2 = Except.ok blue →
        1 ≤ red.buffer.length ∧ 1 ≤ green.buffer.length ∧ 1 ≤ blue.buffer.length)) :
    StepAt U (fun ev => accessEvent s.myRGBImage ev = true)
      (method1 >>= fun _ => method2 sdk) s (fun _ t => t.camera = s.camera) := by
  refine stepAt_bind (stepAt_mono (method1_step U s (h.imp id (fun h => h.1))) id ?_
    (fun _ _ h => h)) ?_
  · intro ev hev
    simp [accessEvent, hev]
  · rintro _ _ rfl
    refine stepAt_mono (method2_step sdk U s (h.imp id (fun h => h.2))) id ?_ (fun _ _ h => h)
    intro ev hev
    simp [accessEvent, hev]

/-! ## Bringing the frame into `myRGBImage` -/

theorem obtainRGB_attach_ok (sdk : Sdk Cam) (pt : PixelType) (s : Vars Cam) (r : GrabResult)
    (hp : s.ptrGrabResult = some r) (hrgb : sdk.IsRGB pt = true)
    (ha : sdk.AttachGrabResultBuffer r = Except.ok ()) :
    obtainRGB sdk pt s =
      ([Event.call (Call.AttachGrabResultBuffer r)],
        Res.ok () { s with myRGBImage := r.image }) := by
  simp [obtainRGB, bind_apply, M.bind, derefGrabResult, sdkCall, modifyVars, hp, hrgb, ha]

theorem obtainRGB_attach_error (sdk : Sdk Cam) (pt : PixelType) (s : Vars Cam) (r : GrabResult)
    (e : GenericException) (hp : s.ptrGrabResult = some r) (hrgb : sdk.IsRGB pt = true)
    (ha : sdk.AttachGrabResultBuffer r = Except.error e) :
    obtainRGB sdk pt s =
      ([Event.call (Call.AttachGrabResultBuffer r), Event.raised e], Res.thrown e) := by
  simp [obtainRGB, bind_apply, M.bind, derefGrabResult, sdkCall, modifyVars, hp, hrgb, ha]

theorem obtainRGB_convert_ok (sdk : Sdk Cam) (pt : PixelType) (s : Vars Cam) (r : GrabResult)
    (img : Image) (hp : s.ptrGrabResult = some r) (hrgb : sdk.IsRGB pt = false)
    (hc : sdk.Convert PixelType.RGB8packed r.image = Except.ok img) :
    obtainRGB sdk pt s =
      ([Event.call (Call.Convert PixelType.RGB8packed r.image)],
        Res.ok () { s with OutputPixelFormat := PixelType.RGB8packed, myRGBImage := img }) := by
  simp [obtainRGB, bind_apply, M.bind, derefGrabResult, sdkCall, modifyVars, readVar, hp, hrgb, hc]

theorem obtainRGB_convert_error (sdk : Sdk Cam) (pt : PixelType) (s : Vars Cam) (r : GrabResult)
    (e : GenericException) (hp : s.ptrGrabResult = some r) (hrgb : sdk.IsRGB pt = false)
    (hc : sdk.Convert PixelType.RGB8packed r.image = Except.error e) :
    obtainRGB sdk pt s =
      ([Event.call (Call.Convert PixelType.RGB8packed r.image), Event.raised e],
        Res.thrown e) := by
  simp [obtainRGB, bind_apply, M.bind, derefGrabResult, sdkCall, modifyVars, readVar, hp, hrgb, hc]

/-! ## One retrieved frame -/

theorem processFrame_failed (sdk : Sdk Cam) (s : Vars Cam) (r : GrabResult)
    (hp : s.ptrGrabResult = some r) (hf : r.grabSucceeded = false) :
    processFrame sdk s =
      ([Event.cout (Output.grabError r.errorCode r.errorDescription)], Res.ok () s) := by
  simp [processFrame, bind_apply, M.bind, derefGrabResult, cout, emit, hp, hf]

theorem processFrame_notColor (sdk : Sdk Cam) (s : Vars Cam) (r : GrabResult)
    (hp : s.ptrGrabResult = some r) (hf : r.grabSucceeded = true)
    (hc : sdk.IsColorImage r.image.pixelType = false) :
    processFrame sdk s =
      ([Event.cout (Output.pixelFormat (sdk.GetNameByPixelType r.image.pixelType)),
        Event.cout Output.notColor], Res.ok () s) := by
  simp [processFrame, bind_apply, M.bind, derefGrabResult, cout, emit, hp, hf, hc]

theorem processFrame_color (sdk : Sdk Cam) (s : Vars Cam) (r : GrabResult)
    (hp : s.ptrGrabResult = some r) (hf : r.grabSucceeded = true)
    (hc : sdk.IsColorImage r.image.pixelType = true) :
    processFrame sdk s =
      (Event.cout (Output.pixelFormat (sdk.GetNameByPixelType r.image.pixelType)) ::
          ((obtainRGB sdk r.image.pixelType >>= fun _ => method1 >>= fun _ => method2 sdk) s).1,
        ((obtainRGB sdk r.image.pixelType >>= fun _ => method1 >>= fun _ => method2 sdk) s).2) := by
  have hd : derefGrabResult s = ([], Res.ok r s) := by simp [derefGrabResult, hp]
  unfold processFrame
  rw [bind_ok hd]
  simp only [hf, hc, if_true, beq_self_eq_true, Bool.true_eq_false, if_false, List.nil_append,
    Bool.false_eq_true]
  have hx : (true == false) = false := rfl
  rw [hx]
  simp only [Bool.false_eq_true, if_false]
  rw [bind_ok (show cout (Output.pixelFormat (sdk.GetNameByPixelType r.image.pixelType)) s =
    ([Event.cout (Output.pixelFormat (sdk.GetNameByPixelType r.image.pixelType))], Res.ok () s)
    from rfl)]
  rfl

/-- The colour branch, by what `obtainRGB` does: it raises, or `myRGBImage` is
set to `img` and the two access methods run on it. -/
theorem color_cases (sdk : Sdk Cam) (s : Vars Cam) (r : GrabResult)
    (hp : s.ptrGrabResult = some r) :
    (∃ e c,
      ((sdk.IsRGB r.image.pixelType = true ∧ c = Call.AttachGrabResultBuffer r ∧
          sdk.AttachGrabResultBuffer r = Except.error e) ∨
        (sdk.IsRGB r.image.pixelType = false ∧ c = Call.Convert PixelType.RGB8packed r.image ∧
          sdk.Convert PixelType.RGB8packed r.image = Except.error e)) ∧
      (obtainRGB sdk r.image.pixelType >>= fun _ => method1 >>= fun _ => method2 sdk) s =
        ([Event.call c, Event.raised e], Res.thrown e)) ∨
    (∃ c t,
      ((sdk.IsRGB r.image.pixelType = true ∧ c = Call.AttachGrabResultBuffer r ∧
          sdk.AttachGrabResultBuffer r = Except.ok () ∧ t.myRGBImage = r.image) ∨
        (sdk.IsRGB r.image.pixelType = false ∧ c = Call.Convert PixelType.RGB8packed r.image ∧
          sdk.Convert PixelType.RGB8packed r.image = Except.ok t.myRGBImage)) ∧
      t.camera = s.camera ∧
      (obtainRGB sdk r.image.pixelType >>= fun _ => method1 >>= fun _ => method2 sdk) s =
        (Event.call c :: ((method1 >>= fun _ => method2 sdk) t).1,
          ((method1 >>= fun _ => method2 sdk) t).2)) := by
  cases hrgb : sdk.IsRGB r.image.pixelType with
  | true =>
    cases ha : sdk.AttachGrabResultBuffer r with
    | error e =>
      exact Or.inl ⟨e, _, Or.inl ⟨rfl, rfl, rfl⟩,
        bind_thrown (obtainRGB_attach_error sdk _ s r e hp hrgb ha)⟩
    | ok u =>
      refine Or.inr ⟨_, { s with myRGBImage := r.image }, Or.inl ⟨rfl, rfl, rfl, rfl⟩, rfl, ?_⟩
      rw [bind_ok (obtainRGB_attach_ok sdk _ s r hp hrgb ha)]
      rfl
  | false =>
    cases hc : sdk.Convert PixelType.RGB8packed r.image with
    | error e =>
      exact Or.inl ⟨e, _, Or.inr ⟨rfl, rfl, rfl⟩,
        bind_thrown (obtainRGB_convert_error sdk _ s r e hp hrgb hc)⟩
    | ok img =>
      refine Or.inr ⟨_, { s with OutputPixelFormat := PixelType.RGB8packed, myRGBImage := img },
        Or.inr ⟨rfl, rfl, rfl⟩, rfl, ?_⟩
      rw [bind_ok (obtainRGB_convert_ok sdk _ s r img hp hrgb hc)]
      rfl

/-! ## Run fragments given by their value -/

theorem stepAt_of_ok {σ α : Type} {U : Prop} {E : Event → Prop} {m : M σ α} {s t : σ}
    {evs : List Event} {a : α} {Q : α → σ → Prop} (h : m s = (evs, Res.ok a t))
    (hE : ∀ ev ∈ evs, E ev ∧ isRaised ev = false) (hQ : Q a t) : StepAt U E m s Q := by
  unfold StepAt
  rw [h]
  refine ⟨fun ev hev => (hE ev hev).1, ?_, hQ⟩
  simp only [Res.isThrown]
  constructor
  · intro hx
    exact absurd hx (by simp)
  · rintro ⟨ev, hev, hr⟩
    rw [(hE ev hev).2] at hr
    exact absurd hr (by simp)

theorem stepAt_of_thrown {σ α : Type} {U : Prop} {E : Event → Prop} {m : M σ α} {s : σ}
    {l : List Event} {e : GenericException} {Q : α → σ → Prop}
    (h : m s = (l ++ [Event.raised e], Res.thrown e)) (hE : ∀ ev ∈ l, E ev)
    (hr : E (Event.raised e)) : StepAt U E m s Q := by
  unfold StepAt
  rw [h]
  refine ⟨?_, ?_, trivial⟩
  · intro ev hev
    rcases List.mem_append.1 hev with h1 | h1
    · exact hE ev h1
    · rw [List.mem_singleton.1 h1]
      exact hr
  · simp only [Res.isThrown, true_iff]
    exact ⟨_, List.mem_append.2 (Or.inr (List.mem_singleton.2 rfl)), rfl⟩

theorem stepAt_of_eq {σ α β : Type} {U : Prop} {E : Event → Prop} {m : M σ α} {n : M σ β}
    {s t : σ} {p : List Event} {Q : α → σ → Prop} {R : β → σ → Prop}
    (hres : ∀ res, (n t).2 = res →
      (res.isThrown = true ↔ (m s).2.isThrown = true) ∧
      ((match res with
        | Res.ok a t => R a t
        | Res.thrown _ => True
        | Res.undefinedBehaviour => U
        | Res.outOfFuel => False) →
        match (m s).2 with
        | Res.ok a t => Q a t
        | Res.thrown _ => True
        | Res.undefinedBehaviour => U
        | Res.outOfFuel => False))
    (h : (m s).1 = p ++ (n t).1)
    (hE : ∀ ev ∈ p, E ev ∧ isRaised ev = false) (h2 : StepAt U E n t R) :
    StepAt U E m s Q := by
  obtain ⟨a1, a2, a3⟩ := h2
  obtain ⟨b1, b2⟩ := hres _ rfl
  unfold StepAt
  rw [h]
  refine ⟨?_, ?_, b2 a3⟩
  · intro ev hev
    rcases List.mem_append.1 hev with h1 | h1
    · exact (hE ev h1).1
    · exact a1 ev h1
  · rw [← b1, a2]
    constructor
    · rintro ⟨ev, hev, hr⟩
      exact ⟨ev, List.mem_append.2 (Or.inr hev), hr⟩
    · rintro ⟨ev, hev, hr⟩
      rcases List.mem_append.1 hev with h1 | h1
      · rw [(hE ev h1).2] at hr
        exact absurd hr (by simp)
      · exact ⟨ev, h1, hr⟩

theorem accessEvent_frame (img : Image) (ev : Event) (h : accessEvent img ev = true) :
    isFrameEvent ev = true := by
  unfold accessEvent at h
  rcases ev with c | e | b | o | o | n
  · cases c <;> simp_all [method1Event, method2Event, isFrameEvent]
  all_goals simp_all [method1Event, method2Event, isFrameEvent]

theorem processFrame_step (sdk : Sdk Cam) (U : Prop) (s : Vars Cam) (r : GrabResult)
    (hp : s.ptrGrabResult = some r) (h : U ∨ FrameSafe sdk r) :
    StepAt U (fun ev => isFrameEvent ev = true) (processFrame sdk) s
      (fun _ t => t.camera = s.camera) := by
  cases hf : r.grabSucceeded with
  | false =>
    refine stepAt_of_ok (processFrame_failed sdk s r hp hf) ?_ rfl
    simp [isFrameEvent, isRaised]
  | true =>
    cases hc : sdk.IsColorImage r.image.pixelType with
    | false =>
      refine stepAt_of_ok (processFrame_notColor sdk s r hp hf hc) ?_ rfl
      simp [isFrameEvent, isRaised]
    | true =>
      have hpf := processFrame_color sdk s r hp hf hc
      rcases color_cases sdk s r hp with ⟨e, c, hcall, heq⟩ | ⟨c, t, hcase, hcam, heq⟩
      · rw [heq] at hpf
        refine stepAt_of_thrown (l := [_, Event.call c]) hpf ?_ rfl
        intro ev hev
        rcases hcall with ⟨-, rfl, -⟩ | ⟨-, rfl, -⟩ <;> simp at hev <;>
          rcases hev with rfl | rfl <;> rfl
      · rw [heq] at hpf
        have hsafe : U ∨ (3 ≤ t.myRGBImage.buffer.length ∧
            ∀ pl red green blue, sdk.Convert PixelType.RGB8planar t.myRGBImage = Except.ok pl →
              sdk.GetPlane pl 0 = Except.ok red → sdk.GetPlane pl 1 = Except.ok green →
              sdk.GetPlane pl 2 = Except.ok blue →
              1 ≤ red.buffer.length ∧ 1 ≤ green.buffer.length ∧ 1 ≤ blue.buffer.length) := by
          rcases h with h | h
          · exact Or.inl h
          · refine Or.inr (h hf hc t.myRGBImage ?_)
            rcases hcase with ⟨hrgb, -, hatt, himg⟩ | ⟨hrgb, -, hconv⟩
            · exact Or.inl ⟨hrgb, hatt, himg⟩
            · exact Or.inr ⟨hrgb, hconv⟩
        have hacc := stepAt_mono (access_step sdk U t hsafe) id (accessEvent_frame _)
          (fun _ _ h => h)
        refine stepAt_of_eq (p := [_, Event.call c]) (n := method1 >>= fun _ => method2 sdk)
          (t := t) ?_ (by rw [hpf]; rfl) ?_ hacc
        · intro res hres
          rw [hpf]
          simp only
          rw [hres]
          refine ⟨Iff.rfl, ?_⟩
          cases res <;> simp
          intro hx
          rw [hx, hcam]
        · intro ev hev
          rcases hcase with ⟨-, rfl, -, -⟩ | ⟨-, rfl, -⟩ <;> simp at hev <;>
            rcases hev with rfl | rfl <;> exact ⟨rfl, rfl⟩

/-! ## The loop body and the loop -/

theorem retrieveResult_ok (sdk : Sdk Cam) (s : Vars Cam) (r : GrabResult) (cam : Cam)
    (hr : sdk.RetrieveResult 5000 TimeoutHandling.ThrowException s.camera = Except.ok (r, cam)) :
    retrieveResult sdk s =
      ([retrieveCall], Res.ok () { s with camera := cam, ptrGrabResult := some r }) := by
  simp [retrieveResult, hr, retrieveCall]

theorem retrieveResult_error (sdk : Sdk Cam) (s : Vars Cam) (e : GenericException)
    (hr : sdk.RetrieveResult 5000 TimeoutHandling.ThrowException s.camera = Except.error e) :
    retrieveResult sdk s = ([retrieveCall, Event.raised e], Res.thrown e) := by
  simp [retrieveResult, hr, retrieveCall]

theorem loopBody_ok (sdk : Sdk Cam) (s : Vars Cam) (r : GrabResult) (cam : Cam)
    (hr : sdk.RetrieveResult 5000 TimeoutHandling.ThrowException s.camera = Except.ok (r, cam)) :
    loopBody sdk s =
      (retrieveCall :: (processFrame sdk { s with camera := cam, ptrGrabResult := some r }).1,
        (processFrame sdk { s with camera := cam, ptrGrabResult := some r }).2) := by
  unfold loopBody
  rw [bind_ok (retrieveResult_ok sdk s r cam hr)]
  rfl

theorem loopBody_error (sdk : Sdk Cam) (s : Vars Cam) (e : GenericException)
    (hr : sdk.RetrieveResult 5000 TimeoutHandling.ThrowException s.camera = Except.error e) :
    loopBody sdk s = ([retrieveCall, Event.raised e], Res.thrown e) := by
  unfold loopBody
  rw [bind_thrown (retrieveResult_error sdk s e hr)]

theorem grabLoop_stop (sdk : Sdk Cam) (fuel : Nat) (s : Vars Cam)
    (h : sdk.IsGrabbing s.camera = false) :
    grabLoop sdk (fuel + 1) s = ([Event.isGrabbing false], Res.ok () s) := by
  simp [grabLoop, bind_apply, M.bind, readVar, emit, h, pure]

theorem grabLoop_go (sdk : Sdk Cam) (fuel : Nat) (s : Vars Cam)
    (h : sdk.IsGrabbing s.camera = true) :
    grabLoop sdk (fuel + 1) s =
      (Event.isGrabbing true :: ((loopBody sdk >>= fun _ => grabLoop sdk fuel) s).1,
        ((loopBody sdk >>= fun _ => grabLoop sdk fuel) s).2) := by
  simp [grabLoop, bind_apply, M.bind, readVar, emit, h]

/-- One round of the loop by the ending of its body. -/
theorem grabLoop_round (sdk : Sdk Cam) (fuel : Nat) (s : Vars Cam)
    (h : sdk.IsGrabbing s.camera = true) :
    (∃ e, sdk.RetrieveResult 5000 TimeoutHandling.ThrowException s.camera = Except.error e ∧
      grabLoop sdk (fuel + 1) s =
        ([Event.isGrabbing true, retrieveCall, Event.raised e], Res.thrown e)) ∨
    (∃ r cam, sdk.RetrieveResult 5000 TimeoutHandling.ThrowException s.camera = Except.ok (r, cam) ∧
      ((∃ t, (processFrame sdk { s with camera := cam, ptrGrabResult := some r }).2 = Res.ok () t ∧
          grabLoop sdk (fuel + 1) s =
            (Event.isGrabbing true :: retrieveCall ::
              ((processFrame sdk { s with camera := cam, ptrGrabResult := some r }).1 ++
                (grabLoop sdk fuel t).1), (grabLoop sdk fuel t).2)) ∨
        ((∀ t, (processFrame sdk { s with camera := cam, ptrGrabResult := some r }).2 ≠
            Res.ok () t) ∧
          (grabLoop sdk (fuel + 1) s).1 = Event.isGrabbing true :: retrieveCall ::
            (processFrame sdk { s with camera := cam, ptrGrabResult := some r }).1 ∧
          ResRel (fun _ _ _ => True) (grabLoop sdk (fuel + 1) s).2
            (processFrame sdk { s with camera := cam, ptrGrabResult := some r }).2))) := by
  rw [grabLoop_go sdk fuel s h]
  rcases hr : sdk.RetrieveResult 5000 TimeoutHandling.ThrowException s.camera with e | ⟨r, cam⟩
  · exact Or.inl ⟨e, rfl, by rw [bind_thrown (loopBody_error sdk s e hr)]⟩
  · refine Or.inr ⟨r, cam, rfl, ?_⟩
    have hb := loopBody_ok sdk s r cam hr
    rcases hpf : processFrame sdk { s with camera := cam, ptrGrabResult := some r } with ⟨evs, res⟩
    rw [hpf] at hb
    cases res with
    | ok u t =>
      refine Or.inl ⟨t, rfl, ?_⟩
      rw [bind_ok hb]
      rfl
    | thrown e =>
      rw [bind_thrown hb]
      exact Or.inr ⟨by simp, rfl, rfl⟩
    | undefinedBehaviour =>
      rw [bind_undefined hb]
      exact Or.inr ⟨by simp, rfl, trivial⟩
    | outOfFuel =>
      rw [bind_outOfFuel hb]
      exact Or.inr ⟨by simp, rfl, trivial⟩

theorem cameraCall_ok (c : Call) (op : Cam → Except GenericException Cam) (s : Vars Cam)
    (cam : Cam) (h : op s.camera = Except.ok cam) :
    cameraCall c op s = ([Event.call c], Res.ok () { s with camera := cam }) := by
  simp [cameraCall, h]

theorem cameraCall_error (c : Call) (op : Cam → Except GenericException Cam) (s : Vars Cam)
    (e : GenericException) (h : op s.camera = Except.error e) :
    cameraCall c op s = ([Event.call c, Event.raised e], Res.thrown e) := by
  simp [cameraCall, h]

/-- The `try` block by the first call that raises before the loop, if any. -/
theorem tryBlock_cases (sdk : Sdk Cam) (fuel : Nat) :
    (∃ e pre, tryBlock sdk fuel = (pre ++ [Event.raised e], Res.thrown e) ∧
      (∀ ev ∈ pre, isRaised ev = false ∧ isRetrieve ev = false)) ∨
    (∃ c1 c2 c3 c4, sdk.CreateFirstDevice "21824812" = Except.ok c1 ∧
      sdk.Open c1 = Except.ok c2 ∧ sdk.FromString "PixelFormat" "RGB8" c2 = Except.ok c3 ∧
      sdk.StartGrabbing c_countOfImagesToGrab c3 = Except.ok c4 ∧
      tryBlock sdk fuel =
        (setupEvents (sdk.GetModelName c1) ++ (grabLoop sdk fuel (initialVars sdk c4)).1,
          (grabLoop sdk fuel (initialVars sdk c4)).2)) := by
  unfold tryBlock
  rcases h1 : sdk.CreateFirstDevice "21824812" with e | c1
  · exact Or.inl ⟨e, [_], rfl, by simp [isRaised, isRetrieve]⟩
  · simp only
    have hm : readVar (fun s : Vars Cam => sdk.GetModelName s.camera) (initialVars sdk c1) =
        ([], Res.ok (sdk.GetModelName c1) (initialVars sdk c1)) := rfl
    have hc : cout (Output.usingDevice (sdk.GetModelName c1)) (initialVars sdk c1) =
        ([Event.cout (Output.usingDevice (sdk.GetModelName c1))],
          Res.ok () (initialVars sdk c1)) := rfl
    unfold withCamera
    rw [bind_ok hm, bind_ok hc]
    rcases h2 : sdk.Open c1 with e | c2
    · rw [bind_thrown (cameraCall_error Call.Open sdk.Open (initialVars sdk c1) e h2)]
      exact Or.inl ⟨e, [_, _, _], rfl, by simp [isRaised, isRetrieve]⟩
    · rw [bind_ok (cameraCall_ok Call.Open sdk.Open (initialVars sdk c1) c2 h2)]
      rcases h3 : sdk.FromString "PixelFormat" "RGB8" c2 with e | c3
      · rw [bind_thrown (cameraCall_error _ (sdk.FromString "PixelFormat" "RGB8")
          { initialVars sdk c1 with camera := c2 } e h3)]
        exact Or.inl ⟨e, [_, _, _, _], rfl, by simp [isRaised, isRetrieve]⟩
      · rw [bind_ok (cameraCall_ok _ (sdk.FromString "PixelFormat" "RGB8")
          { initialVars sdk c1 with camera := c2 } c3 h3)]
        rcases h4 : sdk.StartGrabbing c_countOfImagesToGrab c3 with e | c4
        · rw [bind_thrown (cameraCall_error _ (sdk.StartGrabbing c_countOfImagesToGrab)
            { initialVars sdk c1 with camera := c3 } e h4)]
          exact Or.inl ⟨e, [_, _, _, _, _], rfl, by simp [isRaised, isRetrieve]⟩
        · rw [bind_ok (cameraCall_ok _ (sdk.StartGrabbing c_countOfImagesToGrab)
            { initialVars sdk c1 with camera := c3 } c4 h4)]
          exact Or.inr ⟨c1, c2, c3, c4, rfl, h2, h3, h4, rfl⟩

theorem setupEvents_quiet (name : String) :
    ∀ ev ∈ setupEvents name, isRaised ev = false ∧ isRetrieve ev = false := by
  simp [setupEvents, isRaised, isRetrieve]

theorem waitOnExit_newline (pre post : List Byte) (hpre : ∀ b ∈ pre, b ≠ 10) :
    ∀ fuel, pre.length + 1 ≤ fuel →
      waitOnExit fuel (pre ++ 10 :: post) =
        (pre.map (fun b => Event.cinGet (b.val : Int)) ++ [Event.cinGet 10], true) := by
  induction pre with
  | nil =>
    intro fuel hfuel
    obtain ⟨n, rfl⟩ : ∃ n, fuel = n + 1 := ⟨fuel - 1, by omega⟩
    have h10 : (((10 : Byte) : Nat) : Int) = 10 := rfl
    simp [waitOnExit, cinGet, h10]
  | cons b pre ih =>
    intro fuel hfuel
    obtain ⟨n, rfl⟩ : ∃ n, fuel = n + 1 := ⟨fuel - 1, by omega⟩
    have hb : b ≠ 10 := hpre b (List.mem_cons_self _ _)
    have hb2 : ((b.val : Int) != 10) = true := by
      simp only [bne_iff_ne, ne_eq]
      intro h
      apply hb
      apply Fin.ext
      have : (b.val : Int) = ((10 : Nat) : Int) := h
      exact_mod_cast this
    have hrec := ih (fun x hx => hpre x (List.mem_cons_of_mem _ hx)) n
      (by simp only [List.length_cons] at hfuel; omega)
    simp only [List.cons_append, waitOnExit, cinGet, hb2, if_true, hrec, List.map_cons]

theorem main_of_ok (sdk : Sdk Cam) (stdin : List Byte) (fuel : Nat) (t : List Event) (u : Unit)
    (s : Vars Cam) (h : tryBlock sdk fuel = (t, Res.ok u s)) :
    main sdk stdin fuel = waitAndReturn 0 stdin fuel t := by
  simp [main, h]

theorem main_of_thrown (sdk : Sdk Cam) (stdin : List Byte) (fuel : Nat) (t : List Event)
    (e : GenericException) (h : tryBlock sdk fuel = (t, Res.thrown e)) :
    main sdk stdin fuel =
      waitAndReturn 1 stdin fuel (t ++ [Event.cerr (Output.exceptionOccurred e.description)]) := by
  simp [main, h]

theorem main_of_undefined (sdk : Sdk Cam) (stdin : List Byte) (fuel : Nat) (t : List Event)
    (h : tryBlock sdk fuel = (t, Res.undefinedBehaviour)) :
    main sdk stdin fuel = { trace := t, outcome := Outcome.undefinedBehaviour } := by
  simp [main, h]

theorem main_of_outOfFuel (sdk : Sdk Cam) (stdin : List Byte) (fuel : Nat) (t : List Event)
    (h : tryBlock sdk fuel = (t, Res.outOfFuel)) :
    main sdk stdin fuel = { trace := t, outcome := Outcome.noReturn } := by
  simp [main, h]

theorem sim_session (attached : List String) (script : List (Except GenericException GrabResult)) :
    SessionContract (simSdk attached script) (fun c => c.remaining) := by
  refine ⟨?_, ?_, ?_⟩
  · intro n c c2 h
    simp only [simSdk, Except.ok.injEq] at h
    rw [← h]
  · intro c
    rfl
  · intro t h c r c2 hr
    simp only [simSdk] at hr
    split at hr
    · exact absurd hr (by simp)
    · exact absurd hr (by simp)
    · simp only [Except.ok.injEq, Prod.mk.injEq] at hr
      rw [← hr.2]

/-- A round on a successful colour frame: `obtainRGB` raises, or the two access
methods run on the image it produced. -/
theorem loopBody_color_cases (sdk : Sdk Cam) (s : Vars Cam) (r : GrabResult) (cam : Cam)
    (hr : sdk.RetrieveResult 5000 TimeoutHandling.ThrowException s.camera = Except.ok (r, cam))
    (hf : r.grabSucceeded = true) (hc : sdk.IsColorImage r.image.pixelType = true) :
    (∃ e c,
      ((sdk.IsRGB r.image.pixelType = true ∧ c = Call.AttachGrabResultBuffer r ∧
          sdk.AttachGrabResultBuffer r = Except.error e) ∨
        (sdk.IsRGB r.image.pixelType = false ∧ c = Call.Convert PixelType.RGB8packed r.image ∧
          sdk.Convert PixelType.RGB8packed r.image = Except.error e)) ∧
      loopBody sdk s =
        ([retrieveCall, Event.cout (Output.pixelFormat (sdk.GetNameByPixelType r.image.pixelType)),
          Event.call c, Event.raised e], Res.thrown e)) ∨
    (∃ c t,
      ((sdk.IsRGB r.image.pixelType = true ∧ c = Call.AttachGrabResultBuffer r ∧
          sdk.AttachGrabResultBuffer r = Except.ok () ∧ t.myRGBImage = r.image) ∨
        (sdk.IsRGB r.image.pixelType = false ∧ c = Call.Convert PixelType.RGB8packed r.image ∧
          sdk.Convert PixelType.RGB8packed r.image = Except.ok t.myRGBImage)) ∧
      t.camera = cam ∧
      loopBody sdk s =
        (retrieveCall :: Event.cout (Output.pixelFormat (sdk.GetNameByPixelType r.image.pixelType)) ::
          Event.call c :: ((method1 >>= fun _ => method2 sdk) t).1,
          ((method1 >>= fun _ => method2 sdk) t).2)) := by
  rw [loopBody_ok sdk s r cam hr, processFrame_color sdk _ r rfl hf hc]
  rcases color_cases sdk { s with camera := cam, ptrGrabResult := some r } r rfl with
    ⟨e, c, hcase, heq⟩ | ⟨c, t, hcase, hcam, heq⟩
  · exact Or.inl ⟨e, c, hcase, by rw [heq]⟩
  · exact Or.inr ⟨c, t, hcase, hcam, by rw [heq]⟩

theorem toUInt32_eq (b : Byte) : toUInt32 b = b.val := by
  unfold toUInt32
  have := b.isLt
  omega

theorem method1_eval (t : Vars Cam) (b0 b1 b2 : Byte) (tl : List Byte)
    (h : t.myRGBImage.buffer = b0 :: b1 :: b2 :: tl) :
    method1 t =
      ([Event.cout Output.blank, Event.cout Output.accessingRGB,
        Event.cout (Output.redValue b0.val), Event.cout (Output.greenValue b1.val),
        Event.cout (Output.blueValue b2.val)], Res.ok () t) := by
  simp [method1, bind_apply, M.bind, readVar, cout, emit, readByte, h, toUInt32_eq]

/-- The values method #1 reports are the bytes 0, 1 and 2 of `myRGBImage`. -/
theorem method1_values (t : Vars Cam) (v : Nat) :
    (Event.cout (Output.redValue v) ∈ (method1 t).1 →
      ∃ b, t.myRGBImage.buffer.get? 0 = some b ∧ v = b.val) ∧
    (Event.cout (Output.greenValue v) ∈ (method1 t).1 →
      ∃ b, t.myRGBImage.buffer.get? 1 = some b ∧ v = b.val) ∧
    (Event.cout (Output.blueValue v) ∈ (method1 t).1 →
      ∃ b, t.myRGBImage.buffer.get? 2 = some b ∧ v = b.val) := by
  rcases hb : t.myRGBImage.buffer with _ | ⟨b0, _ | ⟨b1, _ | ⟨b2, tl⟩⟩⟩ <;>
    simp [method1, bind_apply, M.bind, readVar, cout, emit, readByte, hb, toUInt32_eq]

/-- The events of the two access methods: first those of method #1, then those
of method #2. -/
theorem access_split (sdk : Sdk Cam) (t : Vars Cam) :
    ∃ m2, ((method1 >>= fun _ => method2 sdk) t).1 = (method1 t).1 ++ m2 ∧
      (∀ ev ∈ (method1 t).1, method1Event ev = true) ∧
      (∀ ev ∈ m2, method2Event t.myRGBImage ev = true) := by
  obtain ⟨hE, -, hQ⟩ := method1_step True t (Or.inl trivial)
  rcases hm : method1 t with ⟨evs, res⟩
  rw [hm] at hE hQ
  simp only at hE hQ
  cases res with
  | ok u t2 =>
    subst hQ
    rw [bind_ok hm]
    exact ⟨_, rfl, hE, (method2_step sdk True t (Or.inl trivial)).1⟩
  | thrown e =>
    rw [bind_thrown hm]
    exact ⟨[], by simp, hE, by simp⟩
  | undefinedBehaviour =>
    rw [bind_undefined hm]
    exact ⟨[], by simp, hE, by simp⟩
  | outOfFuel => exact absurd hQ (by simp)

/-- The events of a round on a successful colour frame: the retrieve, the pixel
format line, the call `c` that brings the frame into `myRGBImage` (attaching for
an RGB frame, conversion to packed RGB8 otherwise), then events of method #1 and
events of method #2 on the image `img` obtained.  When `c` raises, nothing of
method #1 follows; when it does not, method #1 prints the first three bytes of
`img`. -/
theorem color_round_events (sdk : Sdk Cam) (s : Vars Cam) (r : GrabResult) (cam : Cam)
    (hr : sdk.RetrieveResult 5000 TimeoutHandling.ThrowException s.camera = Except.ok (r, cam))
    (hf : r.grabSucceeded = true) (hc : sdk.IsColorImage r.image.pixelType = true) :
    ∃ c img m1 m2,
      ((sdk.IsRGB r.image.pixelType = true ∧ c = Call.AttachGrabResultBuffer r ∧ img = r.image ∧
          ((∃ e, sdk.AttachGrabResultBuffer r = Except.error e) ∨
            sdk.AttachGrabResultBuffer r = Except.ok ())) ∨
        (sdk.IsRGB r.image.pixelType = false ∧ c = Call.Convert PixelType.RGB8packed r.image ∧
          ((∃ e, sdk.Convert PixelType.RGB8packed r.image = Except.error e) ∨
            sdk.Convert PixelType.RGB8packed r.image = Except.ok img))) ∧
      (loopBody sdk s).1 =
        [retrieveCall, Event.cout (Output.pixelFormat (sdk.GetNameByPixelType r.image.pixelType)),
          Event.call c] ++ m1 ++ m2 ∧
      (∀ ev ∈ m1, method1Event ev = true) ∧
      (∀ ev ∈ m2, method2Event img ev = true) ∧
      (∀ v, (Event.cout (Output.redValue v) ∈ m1 →
          ∃ b, img.buffer.get? 0 = some b ∧ v = b.val) ∧
        (Event.cout (Output.greenValue v) ∈ m1 →
          ∃ b, img.buffer.get? 1 = some b ∧ v = b.val) ∧
        (Event.cout (Output.blueValue v) ∈ m1 →
          ∃ b, img.buffer.get? 2 = some b ∧ v = b.val)) ∧
      ((sdk.IsRGB r.image.pixelType = true → sdk.AttachGrabResultBuffer r = Except.ok ()) →
        (sdk.IsRGB r.image.pixelType = false →
          ∃ out, sdk.Convert PixelType.RGB8packed r.image = Except.ok out) →
        ∀ b0 b1 b2 tl, img.buffer = b0 :: b1 :: b2 :: tl →
          m1 = [Event.cout Output.blank, Event.cout Output.accessingRGB,
            Event.cout (Output.redValue b0.val), Event.cout (Output.greenValue b1.val),
            Event.cout (Output.blueValue b2.val)]) := by
  rcases loopBody_color_cases sdk s r cam hr hf hc with
    ⟨e, c, hcase, heq⟩ | ⟨c, t, hcase, -, heq⟩
  · rcases hcase with ⟨hrgb, rfl, herr⟩ | ⟨hrgb, rfl, herr⟩
    · refine ⟨_, r.image, [], [Event.raised e], Or.inl ⟨hrgb, rfl, rfl, Or.inl ⟨e, herr⟩⟩,
        by rw [heq]; rfl, by simp, by simp [method2Event], by simp, ?_⟩
      intro h1 _
      rw [h1 hrgb] at herr
      exact absurd herr (by simp)
    · refine ⟨_, r.image, [], [Event.raised e], Or.inr ⟨hrgb, rfl, Or.inl ⟨e, herr⟩⟩,
        by rw [heq]; rfl, by simp, by simp [method2Event], by simp, ?_⟩
      intro _ h2
      obtain ⟨out, hout⟩ := h2 hrgb
      rw [hout] at herr
      exact absurd herr (by simp)
  · obtain ⟨m2, hsplit, h1, h2⟩ := access_split sdk t
    refine ⟨c, t.myRGBImage, (method1 t).1, m2, ?_, ?_, h1, h2, method1_values t, ?_⟩
    · rcases hcase with ⟨hrgb, rfl, hatt, himg⟩ | ⟨hrgb, rfl, hconv⟩
      · exact Or.inl ⟨hrgb, rfl, himg, Or.inr hatt⟩
      · exact Or.inr ⟨hrgb, rfl, Or.inr hconv⟩
    · rw [heq]
      simp only
      rw [hsplit]
      simp
    · intro _ _ b0 b1 b2 tl hb
      rw [method1_eval t b0 b1 b2 tl hb]

theorem sim_planar (attached : List String) (script : List (Except GenericException GrabResult)) :
    PlanarContract (simSdk attached script) := by
  refine ⟨?_, ?_⟩
  · intro src pl _ _ _ h
    simp only [simSdk] at h
    split at h
    · simp only [Except.ok.injEq] at h
      rw [← h]
      exact ⟨rfl, rfl, rfl, rfl⟩
    · exact absurd h (by simp)
  · intro img k p _ _ _ h
    simp only [simSdk] at h
    split at h
    · simp only [Except.ok.injEq] at h
      rw [← h]
    · exact absurd h (by simp)

theorem three_bytes (l : List Byte) (h : 3 ≤ l.length) :
    ∃ b0 b1 b2 tl, l = b0 :: b1 :: b2 :: tl := by
  rcases l with _ | ⟨b0, _ | ⟨b1, _ | ⟨b2, tl⟩⟩⟩
  · simp at h
  · simp at h
  · simp at h
  · exact ⟨b0, b1, b2, tl, rfl⟩

/-- The state in which the two access methods run on a successful colour frame
whose image `img` was obtained without a raise. -/
theorem color_round_obtained (sdk : Sdk Cam) (s : Vars Cam) (r : GrabResult) (cam : Cam)
    (img : Image)
    (hr : sdk.RetrieveResult 5000 TimeoutHandling.ThrowException s.camera = Except.ok (r, cam))
    (hf : r.grabSucceeded = true) (hc : sdk.IsColorImage r.image.pixelType = true)
    (himg : (sdk.IsRGB r.image.pixelType = true ∧
        sdk.AttachGrabResultBuffer r = Except.ok () ∧ img = r.image) ∨
      (sdk.IsRGB r.image.pixelType = false ∧
        sdk.Convert PixelType.RGB8packed r.image = Except.ok img)) :
    ∃ c t, t.myRGBImage = img ∧ t.camera = cam ∧
      ((sdk.IsRGB r.image.pixelType = true ∧ c = Call.AttachGrabResultBuffer r) ∨
        (sdk.IsRGB r.image.pixelType = false ∧ c = Call.Convert PixelType.RGB8packed r.image)) ∧
      loopBody sdk s =
        (retrieveCall :: Event.cout (Output.pixelFormat (sdk.GetNameByPixelType r.image.pixelType)) ::
          Event.call c :: ((method1 >>= fun _ => method2 sdk) t).1,
          ((method1 >>= fun _ => method2 sdk) t).2) := by
  rcases loopBody_color_cases sdk s r cam hr hf hc with
    ⟨e, c, hcase, -⟩ | ⟨c, t, hcase, hcam, heq⟩
  · exfalso
    rcases hcase with ⟨hrgb, -, herr⟩ | ⟨hrgb, -, herr⟩ <;>
      rcases himg with ⟨h1, h2, -⟩ | ⟨h1, h2⟩
    · rw [h2] at herr
      exact absurd herr (by simp)
    · rw [hrgb] at h1
      exact absurd h1 (by simp)
    · rw [hrgb] at h1
      exact absurd h1 (by simp)
    · rw [h2] at herr
      exact absurd herr (by simp)
  · refine ⟨c, t, ?_, hcam, ?_, heq⟩
    · rcases hcase with ⟨hrgb, -, -, hi⟩ | ⟨hrgb, -, hconv⟩ <;>
        rcases himg with ⟨h1, h2, h3⟩ | ⟨h1, h2⟩
      · rw [hi, h3]
      · rw [hrgb] at h1
        exact absurd h1 (by simp)
      · rw [hrgb] at h1
        exact absurd h1 (by simp)
      · rw [h2] at hconv
        simpa using hconv.symm
    · rcases hcase with ⟨hrgb, hcc, -⟩ | ⟨hrgb, hcc, -⟩
      · exact Or.inl ⟨hrgb, hcc⟩
      · exact Or.inr ⟨hrgb, hcc⟩

/-! ## Method #2 when its calls succeed -/

theorem splitPlanes_ok (sdk : Sdk Cam) (t : Vars Cam) (pl red green blue : Image)
    (hpl : sdk.Convert PixelType.RGB8planar t.myRGBImage = Except.ok pl)
    (h0 : sdk.GetPlane pl 0 = Except.ok red) (h1 : sdk.GetPlane pl 1 = Except.ok green)
    (h2 : sdk.GetPlane pl 2 = Except.ok blue) :
    splitPlanes sdk t =
      ([Event.call (Call.Convert PixelType.RGB8planar t.myRGBImage),
        Event.call (Call.GetPlane pl 0), Event.call (Call.GetPlane pl 1),
        Event.call (Call.GetPlane pl 2)],
        Res.ok () { t with OutputPixelFormat := PixelType.RGB8planar, myRGBPlanarImage := pl,
                           myRedImage := red, myGreenImage := green, myBlueImage := blue }) := by
  simp [splitPlanes, bind_apply, M.bind, readVar, modifyVars, sdkCall, hpl, h0, h1, h2]

theorem reportPlanes_ok (t : Vars Cam) (x0 x1 x2 : Byte) (tl0 tl1 tl2 : List Byte)
    (h0 : t.myRedImage.buffer = x0 :: tl0) (h1 : t.myGreenImage.buffer = x1 :: tl1)
    (h2 : t.myBlueImage.buffer = x2 :: tl2) :
    reportPlanes t =
      ([Event.cout Output.blank, Event.cout Output.accessingPlanar,
        Event.cout (Output.redPlane x0.val), Event.cout (Output.greenPlane x1.val),
        Event.cout (Output.bluePlane x2.val)], Res.ok () t) := by
  simp [reportPlanes, bind_apply, M.bind, readVar, cout, emit, readByte, h0, h1, h2, toUInt32_eq]

/-- The two access methods up to the last print, when the conversion to planar
and the three plane extractions succeed and every buffer read is in range. -/
theorem access_reports (sdk : Sdk Cam) (t : Vars Cam) (pl red green blue : Image)
    (b0 b1 b2 x0 x1 x2 : Byte) (tl tl0 tl1 tl2 : List Byte)
    (hb : t.myRGBImage.buffer = b0 :: b1 :: b2 :: tl)
    (hpl : sdk.Convert PixelType.RGB8planar t.myRGBImage = Except.ok pl)
    (h0 : sdk.GetPlane pl 0 = Except.ok red) (h1 : sdk.GetPlane pl 1 = Except.ok green)
    (h2 : sdk.GetPlane pl 2 = Except.ok blue)
    (hx0 : red.buffer = x0 :: tl0) (hx1 : green.buffer = x1 :: tl1)
    (hx2 : blue.buffer = x2 :: tl2) :
    (method1 >>= fun _ => method2 sdk) t =
      ([Event.cout Output.blank, Event.cout Output.accessingRGB,
        Event.cout (Output.redValue b0.val), Event.cout (Output.greenValue b1.val),
        Event.cout (Output.blueValue b2.val),
        Event.call (Call.Convert PixelType.RGB8planar t.myRGBImage),
        Event.call (Call.GetPlane pl 0), Event.call (Call.GetPlane pl 1),
        Event.call (Call.GetPlane pl 2),
        Event.cout Output.blank, Event.cout Output.accessingPlanar,
        Event.cout (Output.redPlane x0.val), Event.cout (Output.greenPlane x1.val),
        Event.cout (Output.bluePlane x2.val)] ++
        ((saveImages sdk >>= fun _ => displayImages sdk)
          { t with OutputPixelFormat := PixelType.RGB8planar, myRGBPlanarImage := pl,
                   myRedImage := red, myGreenImage := green, myBlueImage := blue }).1,
        ((saveImages sdk >>= fun _ => displayImages sdk)
          { t with OutputPixelFormat := PixelType.RGB8planar, myRGBPlanarImage := pl,
                   myRedImage := red, myGreenImage := green, myBlueImage := blue }).2) := by
  rw [bind_ok (method1_eval t b0 b1 b2 tl hb)]
  unfold method2
  rw [bind_ok (splitPlanes_ok sdk t pl red green blue hpl h0 h1 h2),
    bind_ok (reportPlanes_ok _ x0 x1 x2 tl0 tl1 tl2 hx0 hx1 hx2)]
  rfl

theorem sinks_ok (sdk : Sdk Cam) (t : Vars Cam)
    (hs0 : sdk.Save ImageFileFormat.Bmp "RGB.bmp" t.myRGBImage = Except.ok ())
    (hs1 : sdk.Save ImageFileFormat.Bmp "red_plane.bmp" t.myRedImage = Except.ok ())
    (hs2 : sdk.Save ImageFileFormat.Bmp "green_plane.bmp" t.myGreenImage = Except.ok ())
    (hs3 : sdk.Save ImageFileFormat.Bmp "blue_plane.bmp" t.myBlueImage = Except.ok ())
    (hd0 : sdk.DisplayImage 0 t.myRGBImage = Except.ok ())
    (hd1 : sdk.DisplayImage 1 t.myRedImage = Except.ok ())
    (hd2 : sdk.DisplayImage 2 t.myGreenImage = Except.ok ())
    (hd3 : sdk.DisplayImage 3 t.myBlueImage = Except.ok ()) :
    (saveImages sdk >>= fun _ => displayImages sdk) t =
      ([Event.call (Call.Save ImageFileFormat.Bmp "RGB.bmp" t.myRGBImage),
        Event.call (Call.Save ImageFileFormat.Bmp "red_plane.bmp" t.myRedImage),
        Event.call (Call.Save ImageFileFormat.Bmp "green_plane.bmp" t.myGreenImage),
        Event.call (Call.Save ImageFileFormat.Bmp "blue_plane.bmp" t.myBlueImage),
        Event.call (Call.DisplayImage 0 t.myRGBImage),
        Event.call (Call.DisplayImage 1 t.myRedImage),
        Event.call (Call.DisplayImage 2 t.myGreenImage),
        Event.call (Call.DisplayImage 3 t.myBlueImage)], Res.ok () t) := by
  simp [saveImages, displayImages, saveBmp, displayImage, bind_apply, M.bind, readVar, sdkCall,
    hs0, hs1, hs2, hs3, hd0, hd1, hd2, hd3]

/-! ## De-interleaving -/

theorem channel_length (k : Nat) : ∀ (n : Nat) (buf : List Byte), buf.length = n * 3 →
    (channel k buf).length = n := by
  intro n
  induction n with
  | zero =>
    intro buf h
    have : buf = [] := List.length_eq_zero.1 (by omega)
    rw [this]
    rfl
  | succ m ih =>
    intro buf h
    rcases buf with _ | ⟨b0, _ | ⟨b1, _ | ⟨b2, tl⟩⟩⟩
    · simp at h
    · simp only [List.length_cons, List.length_nil] at h
      omega
    · simp only [List.length_cons, List.length_nil] at h
      omega
    · simp only [List.length_cons] at h
      simp only [channel, List.length_cons]
      rw [ih tl (by omega)]

theorem planeBytes_deinterleave (pl : Image) (buf : List Byte) (n : Nat)
    (hn : pl.width * pl.height = n) (hb : pl.buffer = deinterleave buf)
    (hlen : buf.length = n * 3) :
    planeBytes pl 0 = channel 0 buf ∧ planeBytes pl 1 = channel 1 buf ∧
      planeBytes pl 2 = channel 2 buf := by
  have l0 := channel_length 0 n buf hlen
  have l1 := channel_length 1 n buf hlen
  have l2 := channel_length 2 n buf hlen
  unfold planeBytes
  rw [hn, hb]
  unfold deinterleave
  refine ⟨?_, ?_, ?_⟩
  · rw [List.append_assoc]
    simp only [Nat.zero_mul, List.drop_zero]
    rw [List.take_append_of_le_length (by omega), List.take_of_length_le (by omega)]
  · rw [List.append_assoc, Nat.one_mul, List.drop_append_of_le_length (by omega),
      List.drop_of_length_le (by omega), List.nil_append,
      List.take_append_of_le_length (by omega), List.take_of_length_le (by omega)]
  · have h : 2 * n = (channel 0 buf ++ channel 1 buf).length := by
      rw [List.length_append]
      omega
    rw [h, List.drop_left, List.take_of_length_le (by omega)]

/-- C3. On a successful colour frame classified as RGB whose buffer starts with
the bytes b0, b1, b2, every value the round reports as red, green or blue value
of the first pixel is b0, b1 or b2 of the frame's own buffer, unchanged by the
widening to 32 bits and at most 255; and when attaching does not raise, these
three values are reported, directly after the attach. -/
theorem rgb_first_pixel (sdk : Sdk Cam) (s : Vars Cam) (r : GrabResult) (cam : Cam)
    (b0 b1 b2 : Byte) (tl : List Byte)
    (hr : sdk.RetrieveResult 5000 TimeoutHandling.ThrowException s.camera = Except.ok (r, cam))
    (hf : r.grabSucceeded = true) (hc : sdk.IsColorImage r.image.pixelType = true)
    (hrgb : sdk.IsRGB r.image.pixelType = true)
    (hb : r.image.buffer = b0 :: b1 :: b2 :: tl) :
    (∀ v, Event.cout (Output.redValue v) ∈ (loopBody sdk s).1 → v = b0.val) ∧
    (∀ v, Event.cout (Output.greenValue v) ∈ (loopBody sdk s).1 → v = b1.val) ∧
    (∀ v, Event.cout (Output.blueValue v) ∈ (loopBody sdk s).1 → v = b2.val) ∧
    (toUInt32 b0 = b0.val ∧ toUInt32 b1 = b1.val ∧ toUInt32 b2 = b2.val) ∧
    (b0.val ≤ 255 ∧ b1.val ≤ 255 ∧ b2.val ≤ 255) ∧
    (sdk.AttachGrabResultBuffer r = Except.ok () →
      ∃ rest, (loopBody sdk s).1 =
        [retrieveCall, Event.cout (Output.pixelFormat (sdk.GetNameByPixelType r.image.pixelType)),
          Event.call (Call.AttachGrabResultBuffer r), Event.cout Output.blank,
          Event.cout Output.accessingRGB, Event.cout (Output.redValue b0.val),
          Event.cout (Output.greenValue b1.val), Event.cout (Output.blueValue b2.val)] ++ rest) := by
  obtain ⟨c, img, m1, m2, hcase, hev, h1, h2, hval, hm1⟩ := color_round_events sdk s r cam hr hf hc
  have hcimg : c = Call.AttachGrabResultBuffer r ∧ img = r.image := by
    rcases hcase with ⟨-, hc, hi, -⟩ | ⟨hx, -⟩
    · exact ⟨hc, hi⟩
    · rw [hrgb] at hx
      exact absurd hx (by simp)
  obtain ⟨rfl, rfl⟩ := hcimg
  have hin : ∀ o, Event.cout o ∈ (loopBody sdk s).1 → method2Event r.image (Event.cout o) = false →
      (∀ n, o ≠ Output.pixelFormat n) → Event.cout o ∈ m1 := by
    intro o hmem hno hpf
    rw [hev] at hmem
    simp only [List.mem_append, List.mem_cons, List.mem_singleton, List.not_mem_nil, or_false,
      retrieveCall] at hmem
    rcases hmem with ((h | h | h) | h) | h
    · exact absurd h (by simp)
    · simp only [Event.cout.injEq] at h
      exact absurd h (hpf _)
    · exact absurd h (by simp)
    · exact h
    · rw [h2 _ h] at hno
      exact absurd hno (by simp)
  refine ⟨?_, ?_, ?_, ⟨toUInt32_eq b0, toUInt32_eq b1, toUInt32_eq b2⟩,
    ⟨by have := b0.isLt; omega, by have := b1.isLt; omega, by have := b2.isLt; omega⟩, ?_⟩
  · intro v hv
    obtain ⟨b, hget, hvb⟩ := (hval v).1 (hin _ hv rfl (by simp))
    rw [hb] at hget
    simp only [List.get?_cons_zero, Option.some.injEq] at hget
    rw [hvb, hget]
  · intro v hv
    obtain ⟨b, hget, hvb⟩ := (hval v).2.1 (hin _ hv rfl (by simp))
    rw [hb] at hget
    simp only [List.get?_cons_succ, List.get?_cons_zero, Option.some.injEq] at hget
    rw [hvb, hget]
  · intro v hv
    obtain ⟨b, hget, hvb⟩ := (hval v).2.2 (hin _ hv rfl (by simp))
    rw [hb] at hget
    simp only [List.get?_cons_succ, List.get?_cons_zero, Option.some.injEq] at hget
    rw [hvb, hget]
  · intro ha
    refine ⟨m2, ?_⟩
    rw [hev, hm1 (fun _ => ha) (fun hx => by rw [hrgb] at hx; exact absurd hx (by simp))
      b0 b1 b2 tl hb]
    rfl

/-- C3 on the scripted SDK: the frame starting with 10, 20, 30. -/
theorem rgb_first_pixel_witness :
    (sim [Except.ok rgbFrame]).RetrieveResult 5000 TimeoutHandling.ThrowException
        (simVars [Except.ok rgbFrame]).camera =
      Except.ok (rgbFrame, { remaining := 0, delivered := 1 }) ∧
    rgbFrame.image.buffer = 10 :: 20 :: 30 :: [40, 50, 60] ∧
    (∀ v, Event.cout (Output.redValue v) ∈
      (loopBody (sim [Except.ok rgbFrame]) (simVars [Except.ok rgbFrame])).1 → v = 10) ∧
    ∃ rest, (loopBody (sim [Except.ok rgbFrame]) (simVars [Except.ok rgbFrame])).1 =
      [retrieveCall, Event.cout (Output.pixelFormat "RGB8"),
        Event.call (Call.AttachGrabResultBuffer rgbFrame), Event.cout Output.blank,
        Event.cout Output.accessingRGB, Event.cout (Output.redValue 10),
        Event.cout (Output.greenValue 20), Event.cout (Output.blueValue 30)] ++ rest :=
  ⟨rfl, rfl,
    (rgb_first_pixel (sim [Except.ok rgbFrame]) (simVars [Except.ok rgbFrame]) rgbFrame
      { remaining := 0, delivered := 1 } 10 20 30 [40, 50, 60] rfl rfl rfl rfl rfl).1,
    (rgb_first_pixel (sim [Except.ok rgbFrame]) (simVars [Except.ok rgbFrame]) rgbFrame
      { remaining := 0, delivered := 1 } 10 20 30 [40, 50, 60] rfl rfl rfl rfl rfl).2.2.2.2.2 rfl⟩

theorem split_unique {α : Type} (P : α → Bool) (A R : List α) (x : α) :
    ∀ (pre post : List α) (z : α), (∀ y ∈ A, P y = false) → (∀ y ∈ R, P y = false) →
      P z = true → A ++ x :: R = pre ++ z :: post → pre = A := by
  induction A with
  | nil =>
    intro pre post z _ hR hz h
    cases pre with
    | nil => rfl
    | cons p pre2 =>
      simp only [List.nil_append, List.cons_append, List.cons.injEq] at h
      have hmem : z ∈ R := by
        rw [h.2]
        exact List.mem_append.2 (Or.inr (List.mem_cons_self _ _))
      rw [hR z hmem] at hz
      exact absurd hz (by simp)
  | cons a A2 ih =>
    intro pre post z hA hR hz h
    cases pre with
    | nil =>
      simp only [List.cons_append, List.nil_append, List.cons.injEq] at h
      have := hA a (List.mem_cons_self _ _)
      rw [h.1, hz] at this
      exact absurd this (by simp)
    | cons p pre2 =>
      simp only [List.cons_append, List.cons.injEq] at h
      rw [h.1, ih pre2 post z (fun y hy => hA y (List.mem_cons_of_mem _ hy)) hR hz h.2]

theorem frameEvent_not_retrieve (ev : Event) (h : isFrameEvent ev = true) :
    isRetrieve ev = false := by
  rcases ev with c | e | b | o | o | n
  · cases c <;> simp_all [isFrameEvent, isRetrieve]
  all_goals simp_all [isFrameEvent, isRetrieve]

/-- With one frame left, the loop makes one round: the condition, the one
`RetrieveResult`, and no further `RetrieveResult`. -/
theorem grabLoop_single (sdk : Sdk Cam) (remaining : Cam → Nat)
    (hs : SessionContract sdk remaining) (fuel : Nat) (s : Vars Cam)
    (hrem : remaining s.camera = 1) (hfuel : 2 ≤ fuel) :
    (grabLoop sdk fuel s).2 ≠ Res.outOfFuel ∧
    ∃ rest, (grabLoop sdk fuel s).1 = Event.isGrabbing true :: retrieveCall :: rest ∧
      ∀ ev ∈ rest, isRetrieve ev = false := by
  obtain ⟨n, rfl⟩ : ∃ n, fuel = n + 2 := ⟨fuel - 2, by omega⟩
  have hg : sdk.IsGrabbing s.camera = true := by
    rw [hs.grabbing, hrem]
    rfl
  rcases grabLoop_round sdk (n + 1) s hg with ⟨e, -, heq⟩ | ⟨r, cam, hr, hcase⟩
  · rw [heq]
    exact ⟨by simp, _, rfl, by simp [isRetrieve]⟩
  · obtain ⟨hE, -, hQ⟩ := processFrame_step sdk True
      { s with camera := cam, ptrGrabResult := some r } r rfl (Or.inl trivial)
    have hquiet : ∀ ev ∈ (processFrame sdk { s with camera := cam, ptrGrabResult := some r }).1,
        isRetrieve ev = false := fun ev hev => frameEvent_not_retrieve ev (hE ev hev)
    rcases hcase with ⟨t, hok, heq⟩ | ⟨-, hev, hrel⟩
    · rw [hok] at hQ
      simp only at hQ
      have hstop : sdk.IsGrabbing t.camera = false := by
        rw [hs.grabbing, hQ, hs.retrieve _ _ _ _ _ hr, hrem]
        rfl
      rw [heq, grabLoop_stop sdk n t hstop]
      refine ⟨by simp, _, rfl, ?_⟩
      intro ev hev
      rcases List.mem_append.1 hev with h | h
      · exact hquiet ev h
      · rw [List.mem_singleton.1 h]
        rfl
    · refine ⟨?_, _, hev, hquiet⟩
      revert hrel hQ
      cases (processFrame sdk { s with camera := cam, ptrGrabResult := some r }).2 <;>
        cases (grabLoop sdk (n + 1 + 1) s).2 <;> simp [ResRel]

/-- C6. Under the session contract the grab loop of `main` terminates within two
condition checks; every `RetrieveResult` call is the one of line 74 with timeout
5000 ms; there is at most one, and exactly `c_countOfImagesToGrab` = 1 when no SDK
call raises; and a `RetrieveResult` call comes after `StartGrabbing(1)`, directly
after a loop condition that was true, and never after one that was false. -/
theorem grab_loop_single_retrieve (sdk : Sdk Cam) (remaining : Cam → Nat) (fuel : Nat)
    (hs : SessionContract sdk remaining) (hfuel : c_countOfImagesToGrab + 1 ≤ fuel) :
    (tryBlock sdk fuel).2 ≠ Res.outOfFuel ∧
    (∀ ev ∈ (tryBlock sdk fuel).1, isRetrieve ev = true → ev = retrieveCall) ∧
    (tryBlock sdk fuel).1.countP isRetrieve ≤ c_countOfImagesToGrab ∧
    ((∀ ev ∈ (tryBlock sdk fuel).1, isRaised ev = false) →
      (tryBlock sdk fuel).1.countP isRetrieve = c_countOfImagesToGrab) ∧
    (∀ pre ev post, (tryBlock sdk fuel).1 = pre ++ ev :: post → isRetrieve ev = true →
      Event.call (Call.StartGrabbing c_countOfImagesToGrab) ∈ pre ∧
      Event.isGrabbing false ∉ pre ∧ pre.getLast? = some (Event.isGrabbing true)) := by
  rcases tryBlock_cases sdk fuel with ⟨e, pre, heq, hpre⟩ | ⟨c1, c2, c3, c4, -, -, -, h4, heq⟩
  · have hnone : ∀ ev ∈ (tryBlock sdk fuel).1, isRetrieve ev = false := by
      rw [heq]
      intro ev hev
      rcases List.mem_append.1 hev with h | h
      · exact (hpre ev h).2
      · rw [List.mem_singleton.1 h]
        rfl
    have hcount : (tryBlock sdk fuel).1.countP isRetrieve = 0 := by
      rw [List.countP_eq_zero]
      intro ev hev
      rw [hnone ev hev]
      simp
    refine ⟨by rw [heq]; simp, ?_, by rw [hcount]; omega, ?_, ?_⟩
    · intro ev hev hr
      rw [hnone ev hev] at hr
      exact absurd hr (by simp)
    · intro hall
      have := hall (Event.raised e) (by rw [heq]; simp)
      exact absurd this (by simp [isRaised])
    · intro pre2 ev post hsplit hr
      have := hnone ev (by rw [hsplit]; simp)
      rw [this] at hr
      exact absurd hr (by simp)
  · have hrem : remaining (initialVars sdk c4).camera = 1 := hs.start _ _ _ h4
    obtain ⟨hfin, rest, hshape, hrest⟩ := grabLoop_single sdk remaining hs fuel
      (initialVars sdk c4) hrem hfuel
    have htrace : (tryBlock sdk fuel).1 =
        (setupEvents (sdk.GetModelName c1) ++ [Event.isGrabbing true]) ++ retrieveCall :: rest := by
      rw [heq]
      simp only
      rw [hshape]
      simp
    have hA : ∀ y ∈ setupEvents (sdk.GetModelName c1) ++ [Event.isGrabbing true],
        isRetrieve y = false := by
      intro y hy
      rcases List.mem_append.1 hy with h | h
      · exact (setupEvents_quiet _ y h).2
      · rw [List.mem_singleton.1 h]
        rfl
    have hcount : (tryBlock sdk fuel).1.countP isRetrieve = 1 := by
      rw [htrace, List.countP_append, List.countP_cons]
      have h1 : List.countP isRetrieve
          (setupEvents (sdk.GetModelName c1) ++ [Event.isGrabbing true]) = 0 := by
        rw [List.countP_eq_zero]
        intro ev hev
        rw [hA ev hev]
        simp
      have h2 : List.countP isRetrieve rest = 0 := by
        rw [List.countP_eq_zero]
        intro ev hev
        rw [hrest ev hev]
        simp
      rw [h1, h2]
      rfl
    refine ⟨by rw [heq]; exact hfin, ?_, by rw [hcount]; rfl, fun _ => hcount, ?_⟩
    · intro ev hev hr
      rw [htrace] at hev
      rcases List.mem_append.1 hev with h | h
      · rw [hA ev h] at hr
        exact absurd hr (by simp)
      · rcases List.mem_cons.1 h with h | h
        · exact h
        · rw [hrest ev h] at hr
          exact absurd hr (by simp)
    · intro pre ev post hsplit hr
      rw [htrace] at hsplit
      have hpre := split_unique isRetrieve _ rest retrieveCall pre post ev hA hrest hr hsplit
      rw [hpre]
      refine ⟨?_, ?_, ?_⟩
      · simp [setupEvents]
      · simp [setupEvents]
      · simp

/-- C6 on the scripted SDK with a budget of two condition checks. -/
theorem grab_loop_single_retrieve_witness :
    SessionContract (sim [Except.ok rgbFrame]) (fun c => c.remaining) ∧
    c_countOfImagesToGrab + 1 ≤ 2 ∧
    (tryBlock (sim [Except.ok rgbFrame]) 2).2 ≠ Res.outOfFuel ∧
    (tryBlock (sim [Except.ok rgbFrame]) 2).1.countP isRetrieve = c_countOfImagesToGrab :=
  ⟨sim_session _ _, by decide,
    (grab_loop_single_retrieve (sim [Except.ok rgbFrame]) (fun c => c.remaining) 2
      (sim_session _ _) (by decide)).1,
    (grab_loop_single_retrieve (sim [Except.ok rgbFrame]) (fun c => c.remaining) 2
      (sim_session _ _) (by decide)).2.2.2.1 (by decide)⟩

/-- C7. The two access methods agree.  Let the conversion to planar RGB8 of a
packed RGB8 image of width × height ≥ 1 pixels be the de-interleaving of its
buffer, and `GetPlane(k)` return plane k of a planar RGB8 image for k = 0, 1, 2.
On a successful colour frame whose packed RGB image `img` (the attached frame, or
the result of the conversion to packed RGB8) is in packed RGB8 with
width × height × 3 bytes for at least one pixel, and whose planar conversion and
three plane extractions return: the round reports bytes 0, 1, 2 of `img` as red, green and blue value of the first
pixel, then the same three values as first pixel of the red, green and blue
plane; and each plane has width × height bytes, the samples of its channel. -/
theorem access_methods_agree (sdk : Sdk Cam) (s : Vars Cam) (r : GrabResult) (cam : Cam)
    (img pl red green blue : Image) (hplanar : PlanarContract sdk)
    (hr : sdk.RetrieveResult 5000 TimeoutHandling.ThrowException s.camera = Except.ok (r, cam))
    (hf : r.grabSucceeded = true) (hc : sdk.IsColorImage r.image.pixelType = true)
    (himg : (sdk.IsRGB r.image.pixelType = true ∧
        sdk.AttachGrabResultBuffer r = Except.ok () ∧ img = r.image) ∨
      (sdk.IsRGB r.image.pixelType = false ∧
        sdk.Convert PixelType.RGB8packed r.image = Except.ok img))
    (hpacked : img.pixelType = PixelType.RGB8packed)
    (hlen : img.buffer.length = img.width * img.height * 3)
    (hpos : 1 ≤ img.width * img.height)
    (hpl : sdk.Convert PixelType.RGB8planar img = Except.ok pl)
    (h0 : sdk.GetPlane pl 0 = Except.ok red) (h1 : sdk.GetPlane pl 1 = Except.ok green)
    (h2 : sdk.GetPlane pl 2 = Except.ok blue) :
    ∃ c b0 b1 b2 rest,
      (img.buffer.get? 0 = some b0 ∧ img.buffer.get? 1 = some b1 ∧ img.buffer.get? 2 = some b2) ∧
      (loopBody sdk s).1 =
        [retrieveCall, Event.cout (Output.pixelFormat (sdk.GetNameByPixelType r.image.pixelType)),
          Event.call c, Event.cout Output.blank, Event.cout Output.accessingRGB,
          Event.cout (Output.redValue b0.val), Event.cout (Output.greenValue b1.val),
          Event.cout (Output.blueValue b2.val),
          Event.call (Call.Convert PixelType.RGB8planar img),
          Event.call (Call.GetPlane pl 0), Event.call (Call.GetPlane pl 1),
          Event.call (Call.GetPlane pl 2),
          Event.cout Output.blank, Event.cout Output.accessingPlanar,
          Event.cout (Output.redPlane b0.val), Event.cout (Output.greenPlane b1.val),
          Event.cout (Output.bluePlane b2.val)] ++ rest ∧
      (red.buffer.length = img.width * img.height ∧
        green.buffer.length = img.width * img.height ∧
        blue.buffer.length = img.width * img.height) ∧
      (red.buffer = channel 0 img.buffer ∧ green.buffer = channel 1 img.buffer ∧
        blue.buffer = channel 2 img.buffer) := by
  obtain ⟨c, t, ht, -, -, heq⟩ := color_round_obtained sdk s r cam img hr hf hc himg
  obtain ⟨hpt, hw, hh, hbuf⟩ := hplanar.convert img pl hpacked hpos hlen hpl
  have hn : pl.width * pl.height = img.width * img.height := by rw [hw, hh]
  obtain ⟨p0, p1, p2⟩ := planeBytes_deinterleave pl img.buffer (img.width * img.height) hn hbuf hlen
  have hpllen : pl.buffer.length = pl.width * pl.height * 3 := by
    rw [hbuf, hn]
    simp only [deinterleave, List.length_append, channel_length 0 _ img.buffer hlen,
      channel_length 1 _ img.buffer hlen, channel_length 2 _ img.buffer hlen]
    omega
  have e0 : red.buffer = channel 0 img.buffer := by
    rw [hplanar.getPlane pl 0 red hpt (by omega) hpllen h0, p0]
  have e1 : green.buffer = channel 1 img.buffer := by
    rw [hplanar.getPlane pl 1 green hpt (by omega) hpllen h1, p1]
  have e2 : blue.buffer = channel 2 img.buffer := by
    rw [hplanar.getPlane pl 2 blue hpt (by omega) hpllen h2, p2]
  obtain ⟨b0, b1, b2, tl, hb⟩ := three_bytes img.buffer (by omega)
  have e0b : red.buffer = b0 :: channel 0 tl := by rw [e0, hb]; simp [channel]
  have e1b : green.buffer = b1 :: channel 1 tl := by rw [e1, hb]; simp [channel]
  have e2b : blue.buffer = b2 :: channel 2 tl := by rw [e2, hb]; simp [channel]
  refine ⟨c, b0, b1, b2,
    ((saveImages sdk >>= fun _ => displayImages sdk)
      { t with OutputPixelFormat := PixelType.RGB8planar, myRGBPlanarImage := pl,
               myRedImage := red, myGreenImage := green, myBlueImage := blue }).1,
    by rw [hb]; exact ⟨rfl, rfl, rfl⟩, ?_, ?_, ⟨e0, e1, e2⟩⟩
  · rw [heq]
    simp only
    rw [access_reports sdk t pl red green blue b0 b1 b2 b0 b1 b2 tl _ _ _
      (by rw [ht]; exact hb) (by rw [ht]; exact hpl) h0 h1 h2 e0b e1b e2b, ht]
    rfl
  · rw [e0, e1, e2]
    exact ⟨channel_length 0 _ img.buffer hlen, channel_length 1 _ img.buffer hlen,
      channel_length 2 _ img.buffer hlen⟩

/-- C7 on the scripted SDK with one 2 × 1 RGB frame. -/
theorem access_methods_agree_witness :
    PlanarContract (sim [Except.ok rgbFrame]) ∧
    rgbFrame.image.pixelType = PixelType.RGB8packed ∧
    rgbFrame.image.buffer.length = rgbFrame.image.width * rgbFrame.image.height * 3 ∧
    1 ≤ rgbFrame.image.width * rgbFrame.image.height ∧
    (sim [Except.ok rgbFrame]).Convert PixelType.RGB8planar rgbFrame.image = Except.ok rgbPlanar ∧
    (sim [Except.ok rgbFrame]).GetPlane rgbPlanar 0 = Except.ok (rgbPlane 0) ∧
    ∃ c b0 b1 b2 rest,
      (rgbFrame.image.buffer.get? 0 = some b0 ∧ rgbFrame.image.buffer.get? 1 = some b1 ∧
        rgbFrame.image.buffer.get? 2 = some b2) ∧
      (loopBody (sim [Except.ok rgbFrame]) (simVars [Except.ok rgbFrame])).1 =
        [retrieveCall,
          Event.cout (Output.pixelFormat
            ((sim [Except.ok rgbFrame]).GetNameByPixelType rgbFrame.image.pixelType)),
          Event.call c, Event.cout Output.blank, Event.cout Output.accessingRGB,
          Event.cout (Output.redValue b0.val), Event.cout (Output.greenValue b1.val),
          Event.cout (Output.blueValue b2.val),
          Event.call (Call.Convert PixelType.RGB8planar rgbFrame.image),
          Event.call (Call.GetPlane rgbPlanar 0), Event.call (Call.GetPlane rgbPlanar 1),
          Event.call (Call.GetPlane rgbPlanar 2),
          Event.cout Output.blank, Event.cout Output.accessingPlanar,
          Event.cout (Output.redPlane b0.val), Event.cout (Output.greenPlane b1.val),
          Event.cout (Output.bluePlane b2.val)] ++ rest ∧
      ((rgbPlane 0).buffer.length = rgbFrame.image.width * rgbFrame.image.height ∧
        (rgbPlane 1).buffer.length = rgbFrame.image.width * rgbFrame.image.height ∧
        (rgbPlane 2).buffer.length = rgbFrame.image.width * rgbFrame.image.height) ∧
      ((rgbPlane 0).buffer = channel 0 rgbFrame.image.buffer ∧
        (rgbPlane 1).buffer = channel 1 rgbFrame.image.buffer ∧
        (rgbPlane 2).buffer = channel 2 rgbFrame.image.buffer) :=
  ⟨sim_planar _ _, rfl, rfl, by decide, rfl, rfl,
    access_methods_agree (sim [Except.ok rgbFrame]) (simVars [Except.ok rgbFrame]) rgbFrame
      { remaining := 0, delivered := 1 } rgbFrame.image rgbPlanar (rgbPlane 0) (rgbPlane 1)
      (rgbPlane 2) (sim_planar _ _) rfl rfl rfl (Or.inl ⟨rfl, rfl, rfl⟩) rfl rfl (by decide)
      rfl rfl rfl rfl⟩

/-! ## Two runs side by side -/

theorem relAt_bind {σ α β : Type} {Q : α → σ → σ → Prop} {R : β → σ → σ → Prop}
    {m : M σ α} {f : α → M σ β} {s1 s2 : σ}
    (hm : RelAt m s1 s2 Q) (hf : ∀ a t1 t2, Q a t1 t2 → RelAt (f a) t1 t2 R) :
    RelAt (m >>= f) s1 s2 R := by
  obtain ⟨he, hr⟩ := hm
  simp only [RelAt, bind_apply, M.bind]
  rcases h1 : m s1 with ⟨t1, r1⟩
  rcases h2 : m s2 with ⟨t2, r2⟩
  rw [h1, h2] at he hr
  simp only at he hr
  subst he
  cases r1 <;> cases r2 <;> simp only [ResRel] at hr <;> try simp [ResRel, hr]
  obtain ⟨rfl, hq⟩ := hr
  have h := hf _ _ _ hq
  exact ⟨by rw [h.1], h.2⟩

theorem relAt_mono {σ α : Type} {Q R : α → σ → σ → Prop} {m : M σ α} {s1 s2 : σ}
    (hm : RelAt m s1 s2 Q) (h : ∀ a t1 t2, Q a t1 t2 → R a t1 t2) : RelAt m s1 s2 R := by
  obtain ⟨he, hr⟩ := hm
  refine ⟨he, ?_⟩
  revert hr
  cases (m s1).2 <;> cases (m s2).2 <;> simp only [ResRel, imp_self, and_imp]
  intro ha hq
  exact ⟨ha, h _ _ _ hq⟩

theorem relAt_readVar {σ α : Type} (f : σ → α) {s1 s2 : σ} (h : f s1 = f s2) :
    RelAt (readVar f) s1 s2 (fun a t1 t2 => f s1 = a ∧ s1 = t1 ∧ s2 = t2) := by
  simp [RelAt, readVar, ResRel, h]

theorem relAt_modifyVars {σ : Type} (g : σ → σ) (s1 s2 : σ) :
    RelAt (modifyVars g) s1 s2 (fun _ t1 t2 => g s1 = t1 ∧ g s2 = t2) := by
  simp [RelAt, modifyVars, ResRel]

theorem relAt_sdkCall {σ α : Type} (c : Call) (r : Except GenericException α) (s1 s2 : σ) :
    RelAt (sdkCall c r) s1 s2 (fun _ t1 t2 => s1 = t1 ∧ s2 = t2) := by
  cases r <;> simp [RelAt, sdkCall, ResRel]

theorem relAt_cout {σ : Type} (o : Output) (s1 s2 : σ) :
    RelAt (cout o) s1 s2 (fun _ t1 t2 => s1 = t1 ∧ s2 = t2) := by
  simp [RelAt, cout, emit, ResRel]

theorem relAt_readByte {σ : Type} (buf : List Byte) (i : Nat) (s1 s2 : σ) :
    RelAt (readByte buf i) s1 s2 (fun _ t1 t2 => s1 = t1 ∧ s2 = t2) := by
  simp only [RelAt, readByte]
  cases buf.get? i <;> simp [ResRel]

theorem relAt_deref {s1 s2 : Vars Cam} (h : s1.ptrGrabResult = s2.ptrGrabResult) :
    RelAt derefGrabResult s1 s2 (fun a t1 t2 => s1.ptrGrabResult = some a ∧ s1 = t1 ∧ s2 = t2) := by
  simp only [RelAt, derefGrabResult, ← h]
  cases s1.ptrGrabResult <;> simp [ResRel]

theorem obtainRGB_rel (sdk : Sdk Cam) (pt : PixelType) (s1 s2 : Vars Cam)
    (h : s1.ptrGrabResult = s2.ptrGrabResult) :
    RelAt (obtainRGB sdk pt) s1 s2 (fun _ t1 t2 =>
      t1.camera = s1.camera ∧ t2.camera = s2.camera ∧ t1.myRGBImage = t2.myRGBImage) := by
  unfold obtainRGB
  split
  · refine relAt_bind (relAt_modifyVars _ _ _) ?_
    rintro _ _ _ ⟨rfl, rfl⟩
    refine relAt_bind (relAt_readVar _ rfl) ?_
    rintro _ _ _ ⟨rfl, rfl, rfl⟩
    refine relAt_bind (relAt_deref h) ?_
    rintro _ _ _ ⟨-, rfl, rfl⟩
    refine relAt_bind (relAt_sdkCall _ _ _ _) ?_
    rintro _ _ _ ⟨rfl, rfl⟩
    refine relAt_mono (relAt_modifyVars _ _ _) ?_
    rintro _ _ _ ⟨rfl, rfl⟩
    exact ⟨rfl, rfl, rfl⟩
  · refine relAt_bind (relAt_deref h) ?_
    rintro _ _ _ ⟨-, rfl, rfl⟩
    refine relAt_bind (relAt_sdkCall _ _ _ _) ?_
    rintro _ _ _ ⟨rfl, rfl⟩
    refine relAt_mono (relAt_modifyVars _ _ _) ?_
    rintro _ _ _ ⟨rfl, rfl⟩
    exact ⟨rfl, rfl, rfl⟩

theorem method1_rel (s1 s2 : Vars Cam) (h : s1.myRGBImage = s2.myRGBImage) :
    RelAt method1 s1 s2 (fun _ t1 t2 => s1 = t1 ∧ s2 = t2) := by
  unfold method1
  refine relAt_bind (relAt_readVar _ (by rw [h])) ?_
  rintro _ _ _ ⟨rfl, rfl, rfl⟩
  refine relAt_bind (relAt_cout _ _ _) ?_
  rintro _ _ _ ⟨rfl, rfl⟩
  refine relAt_bind (relAt_cout _ _ _) ?_
  rintro _ _ _ ⟨rfl, rfl⟩
  refine relAt_bind (relAt_readByte _ _ _ _) ?_
  rintro _ _ _ ⟨rfl, rfl⟩
  refine relAt_bind (relAt_cout _ _ _) ?_
  rintro _ _ _ ⟨rfl, rfl⟩
  refine relAt_bind (relAt_readByte _ _ _ _) ?_
  rintro _ _ _ ⟨rfl, rfl⟩
  refine relAt_bind (relAt_cout _ _ _) ?_
  rintro _ _ _ ⟨rfl, rfl⟩
  refine relAt_bind (relAt_readByte _ _ _ _) ?_
  rintro _ _ _ ⟨rfl, rfl⟩
  exact relAt_cout _ _ _

theorem splitPlanes_rel (sdk : Sdk Cam) (s1 s2 : Vars Cam) (h : s1.myRGBImage = s2.myRGBImage) :
    RelAt (splitPlanes sdk) s1 s2 (fun _ t1 t2 =>
      t1.camera = s1.camera ∧ t2.camera = s2.camera ∧
      t1.myRGBImage = t2.myRGBImage ∧ t1.myRedImage = t2.myRedImage ∧
      t1.myGreenImage = t2.myGreenImage ∧ t1.myBlueImage = t2.myBlueImage) := by
  unfold splitPlanes
  refine relAt_bind (relAt_modifyVars _ _ _) ?_
  rintro _ _ _ ⟨rfl, rfl⟩
  refine relAt_bind (relAt_readVar _ rfl) ?_
  rintro _ _ _ ⟨rfl, rfl, rfl⟩
  refine relAt_bind (relAt_readVar _ h) ?_
  rintro _ _ _ ⟨rfl, rfl, rfl⟩
  refine relAt_bind (relAt_sdkCall _ _ _ _) ?_
  rintro _ _ _ ⟨rfl, rfl⟩
  refine relAt_bind (relAt_modifyVars _ _ _) ?_
  rintro _ _ _ ⟨rfl, rfl⟩
  refine relAt_bind (relAt_readVar _ rfl) ?_
  rintro _ _ _ ⟨rfl, rfl, rfl⟩
  refine relAt_bind (relAt_sdkCall _ _ _ _) ?_
  rintro _ _ _ ⟨rfl, rfl⟩
  refine relAt_bind (relAt_modifyVars _ _ _) ?_
  rintro _ _ _ ⟨rfl, rfl⟩
  refine relAt_bind (relAt_readVar _ rfl) ?_
  rintro _ _ _ ⟨rfl, rfl, rfl⟩
  refine relAt_bind (relAt_sdkCall _ _ _ _) ?_
  rintro _ _ _ ⟨rfl, rfl⟩
  refine relAt_bind (relAt_modifyVars _ _ _) ?_
  rintro _ _ _ ⟨rfl, rfl⟩
  refine relAt_bind (relAt_readVar _ rfl) ?_
  rintro _ _ _ ⟨rfl, rfl, rfl⟩
  refine relAt_bind (relAt_sdkCall _ _ _ _) ?_
  rintro _ _ _ ⟨rfl, rfl⟩
  refine relAt_mono (relAt_modifyVars _ _ _) ?_
  rintro _ _ _ ⟨rfl, rfl⟩
  exact ⟨rfl, rfl, h, rfl, rfl, rfl⟩

theorem reportPlanes_rel (s1 s2 : Vars Cam) (h0 : s1.myRedImage = s2.myRedImage)
    (h1 : s1.myGreenImage = s2.myGreenImage) (h2 : s1.myBlueImage = s2.myBlueImage) :
    RelAt reportPlanes s1 s2 (fun _ t1 t2 => s1 = t1 ∧ s2 = t2) := by
  unfold reportPlanes
  refine relAt_bind (relAt_readVar _ (by rw [h0])) ?_
  rintro _ _ _ ⟨rfl, rfl, rfl⟩
  refine relAt_bind (relAt_readVar _ (by rw [h1])) ?_
  rintro _ _ _ ⟨rfl, rfl, rfl⟩
  refine relAt_bind (relAt_readVar _ (by rw [h2])) ?_
  rintro _ _ _ ⟨rfl, rfl, rfl⟩
  refine relAt_bind (relAt_cout _ _ _) ?_
  rintro _ _ _ ⟨rfl, rfl⟩
  refine relAt_bind (relAt_cout _ _ _) ?_
  rintro _ _ _ ⟨rfl, rfl⟩
  refine relAt_bind (relAt_readByte _ _ _ _) ?_
  rintro _ _ _ ⟨rfl, rfl⟩
  refine relAt_bind (relAt_cout _ _ _) ?_
  rintro _ _ _ ⟨rfl, rfl⟩
  refine relAt_bind (relAt_readByte _ _ _ _) ?_
  rintro _ _ _ ⟨rfl, rfl⟩
  refine relAt_bind (relAt_cout _ _ _) ?_
  rintro _ _ _ ⟨rfl, rfl⟩
  refine relAt_bind (relAt_readByte _ _ _ _) ?_
  rintro _ _ _ ⟨rfl, rfl⟩
  exact relAt_cout _ _ _

theorem saveBmp_rel (sdk : Sdk Cam) (filename : String) (image : Vars Cam → Image)
    (s1 s2 : Vars Cam) (h : image s1 = image s2) :
    RelAt (saveBmp sdk filename image) s1 s2 (fun _ t1 t2 => s1 = t1 ∧ s2 = t2) := by
  unfold saveBmp
  refine relAt_bind (relAt_readVar _ h) ?_
  rintro _ _ _ ⟨rfl, rfl, rfl⟩
  exact relAt_sdkCall _ _ _ _

theorem displayImage_rel (sdk : Sdk Cam) (winIndex : Nat) (image : Vars Cam → Image)
    (s1 s2 : Vars Cam) (h : image s1 = image s2) :
    RelAt (displayImage sdk winIndex image) s1 s2 (fun _ t1 t2 => s1 = t1 ∧ s2 = t2) := by
  unfold displayImage
  refine relAt_bind (relAt_readVar _ h) ?_
  rintro _ _ _ ⟨rfl, rfl, rfl⟩
  exact relAt_sdkCall _ _ _ _

theorem saveImages_rel (sdk : Sdk Cam) (s1 s2 : Vars Cam) (h : s1.myRGBImage = s2.myRGBImage)
    (h0 : s1.myRedImage = s2.myRedImage) (h1 : s1.myGreenImage = s2.myGreenImage)
    (h2 : s1.myBlueImage = s2.myBlueImage) :
    RelAt (saveImages sdk) s1 s2 (fun _ t1 t2 => s1 = t1 ∧ s2 = t2) := by
  unfold saveImages
  refine relAt_bind (saveBmp_rel sdk _ _ _ _ h) ?_
  rintro _ _ _ ⟨rfl, rfl⟩
  refine relAt_bind (saveBmp_rel sdk _ _ _ _ h0) ?_
  rintro _ _ _ ⟨rfl, rfl⟩
  refine relAt_bind (saveBmp_rel sdk _ _ _ _ h1) ?_
  rintro _ _ _ ⟨rfl, rfl⟩
  exact saveBmp_rel sdk _ _ _ _ h2

theorem displayImages_rel (sdk : Sdk Cam) (s1 s2 : Vars Cam)
    (h : s1.myRGBImage = s2.myRGBImage) (h0 : s1.myRedImage = s2.myRedImage)
    (h1 : s1.myGreenImage = s2.myGreenImage) (h2 : s1.myBlueImage = s2.myBlueImage) :
    RelAt (displayImages sdk) s1 s2 (fun _ t1 t2 => s1 = t1 ∧ s2 = t2) := by
  unfold displayImages
  refine relAt_bind (displayImage_rel sdk _ _ _ _ h) ?_
  rintro _ _ _ ⟨rfl, rfl⟩
  refine relAt_bind (displayImage_rel sdk _ _ _ _ h0) ?_
  rintro _ _ _ ⟨rfl, rfl⟩
  refine relAt_bind (displayImage_rel sdk _ _ _ _ h1) ?_
  rintro _ _ _ ⟨rfl, rfl⟩
  exact displayImage_rel sdk _ _ _ _ h2

theorem method2_rel (sdk : Sdk Cam) (s1 s2 : Vars Cam) (h : s1.myRGBImage = s2.myRGBImage) :
    RelAt (method2 sdk) s1 s2 (fun _ t1 t2 =>
      t1.camera = s1.camera ∧ t2.camera = s2.camera) := by
  unfold method2
  refine relAt_bind (splitPlanes_rel sdk s1 s2 h) ?_
  rintro _ t1 t2 ⟨hc1, hc2, hi, h0, h1, h2⟩
  refine relAt_bind (reportPlanes_rel t1 t2 h0 h1 h2) ?_
  rintro _ _ _ ⟨rfl, rfl⟩
  refine relAt_bind (saveImages_rel sdk _ _ hi h0 h1 h2) ?_
  rintro _ _ _ ⟨rfl, rfl⟩
  refine relAt_mono (displayImages_rel sdk _ _ hi h0 h1 h2) ?_
  rintro _ _ _ ⟨rfl, rfl⟩
  exact ⟨hc1, hc2⟩

/-- What is done with a retrieved frame depends on the variables only through
the grab result pointer. -/
theorem processFrame_rel (sdk : Sdk Cam) (s1 s2 : Vars Cam)
    (h : s1.ptrGrabResult = s2.ptrGrabResult) :
    RelAt (processFrame sdk) s1 s2 (fun _ t1 t2 =>
      t1.camera = s1.camera ∧ t2.camera = s2.camera) := by
  unfold processFrame
  refine relAt_bind (relAt_deref h) ?_
  rintro r _ _ ⟨-, rfl, rfl⟩
  split
  · simp only
    refine relAt_bind (relAt_cout _ _ _) ?_
    rintro _ _ _ ⟨rfl, rfl⟩
    split
    · refine relAt_mono (relAt_cout _ _ _) ?_
      rintro _ _ _ ⟨rfl, rfl⟩
      exact ⟨rfl, rfl⟩
    · refine relAt_bind (obtainRGB_rel sdk _ _ _ h) ?_
      rintro _ t1 t2 ⟨hc1, hc2, hi⟩
      refine relAt_bind (method1_rel t1 t2 hi) ?_
      rintro _ _ _ ⟨rfl, rfl⟩
      refine relAt_mono (method2_rel sdk _ _ hi) ?_
      rintro _ _ _ ⟨hd1, hd2⟩
      exact ⟨hd1.trans hc1, hd2.trans hc2⟩
  · refine relAt_mono (relAt_cout _ _ _) ?_
    rintro _ _ _ ⟨rfl, rfl⟩
    exact ⟨rfl, rfl⟩

/-- Two rounds that retrieve the same frame emit the same events and end alike. -/
theorem loopBody_same_frame (sdk : Sdk Cam) (s1 s2 : Vars Cam) (r : GrabResult) (c1 c2 : Cam)
    (h1 : sdk.RetrieveResult 5000 TimeoutHandling.ThrowException s1.camera = Except.ok (r, c1))
    (h2 : sdk.RetrieveResult 5000 TimeoutHandling.ThrowException s2.camera = Except.ok (r, c2)) :
    RelAt (loopBody sdk) s1 s2 (fun _ t1 t2 => t1.camera = c1 ∧ t2.camera = c2) := by
  have hp := processFrame_rel sdk { s1 with camera := c1, ptrGrabResult := some r }
    { s2 with camera := c2, ptrGrabResult := some r } rfl
  unfold RelAt at hp ⊢
  rw [loopBody_ok sdk s1 r c1 h1, loopBody_ok sdk s2 r c2 h2]
  exact ⟨by rw [hp.1], hp.2⟩

theorem loopBody_rel (sdk : Sdk Cam) (s1 s2 : Vars Cam) (h : s1.camera = s2.camera) :
    RelAt (loopBody sdk) s1 s2 (fun _ t1 t2 => t1.camera = t2.camera) := by
  rcases hr : sdk.RetrieveResult 5000 TimeoutHandling.ThrowException s1.camera with e | ⟨r, cam⟩
  · unfold RelAt
    rw [loopBody_error sdk s1 e hr, loopBody_error sdk s2 e (by rw [← h]; exact hr)]
    exact ⟨rfl, rfl⟩
  · refine relAt_mono (loopBody_same_frame sdk s1 s2 r cam cam hr (by rw [← h]; exact hr)) ?_
    rintro _ _ _ ⟨h1, h2⟩
    rw [h1, h2]

theorem grabLoop_rel (sdk : Sdk Cam) (fuel : Nat) :
    ∀ s1 s2 : Vars Cam, s1.camera = s2.camera →
      RelAt (grabLoop sdk fuel) s1 s2 (fun _ t1 t2 => t1.camera = t2.camera) := by
  induction fuel with
  | zero =>
    intro s1 s2 _
    exact ⟨rfl, trivial⟩
  | succ n ih =>
    intro s1 s2 h
    cases hg : sdk.IsGrabbing s1.camera with
    | false =>
      have hg2 : sdk.IsGrabbing s2.camera = false := by rw [← h]; exact hg
      unfold RelAt
      rw [grabLoop_stop sdk n s1 hg, grabLoop_stop sdk n s2 hg2]
      exact ⟨rfl, rfl, h⟩
    | true =>
      have hg2 : sdk.IsGrabbing s2.camera = true := by rw [← h]; exact hg
      have hb := relAt_bind (f := fun _ => grabLoop sdk n) (loopBody_rel sdk s1 s2 h)
        (fun _ t1 t2 ht => ih t1 t2 ht)
      unfold RelAt at hb ⊢
      rw [grabLoop_go sdk n s1 hg, grabLoop_go sdk n s2 hg2]
      exact ⟨by rw [hb.1], hb.2⟩

/-- C8. No state is carried from one round of the grab loop to the next through
the variables declared outside the loop, for any number of rounds: run from two
sets of variables that agree on the camera only (any grab result pointer, any
converter setting, any content of the five images), the loop emits the same
events and ends alike; and two rounds that retrieve the same frame emit the same
events (prints, saves, displays and all calls) and end alike, whatever the
variables and the camera went through before. -/
theorem rounds_independent (sdk : Sdk Cam) :
    (∀ fuel (s1 s2 : Vars Cam), s1.camera = s2.camera →
      (grabLoop sdk fuel s1).1 = (grabLoop sdk fuel s2).1 ∧
      ResRel (fun _ t1 t2 => t1.camera = t2.camera)
        (grabLoop sdk fuel s1).2 (grabLoop sdk fuel s2).2) ∧
    (∀ (s1 s2 : Vars Cam) r c1 c2,
      sdk.RetrieveResult 5000 TimeoutHandling.ThrowException s1.camera = Except.ok (r, c1) →
      sdk.RetrieveResult 5000 TimeoutHandling.ThrowException s2.camera = Except.ok (r, c2) →
      (loopBody sdk s1).1 = (loopBody sdk s2).1 ∧
      ResRel (fun _ t1 t2 => t1.camera = c1 ∧ t2.camera = c2)
        (loopBody sdk s1).2 (loopBody sdk s2).2) :=
  ⟨fun fuel s1 s2 h => grabLoop_rel sdk fuel s1 s2 h,
    fun s1 s2 r c1 c2 h1 h2 => loopBody_same_frame sdk s1 s2 r c1 c2 h1 h2⟩

/-- C8 on the scripted SDK: the same frame retrieved with fresh and with used variables. -/
theorem rounds_independent_witness :
    (sim [Except.ok rgbFrame, Except.ok bayerFrame, Except.ok rgbFrame]).RetrieveResult 5000
        TimeoutHandling.ThrowException
        (simVars [Except.ok rgbFrame, Except.ok bayerFrame, Except.ok rgbFrame]).camera =
      Except.ok (rgbFrame, { remaining := 0, delivered := 1 }) ∧
    (sim [Except.ok rgbFrame, Except.ok bayerFrame, Except.ok rgbFrame]).RetrieveResult 5000
        TimeoutHandling.ThrowException usedVars.camera =
      Except.ok (rgbFrame, { remaining := 0, delivered := 3 }) ∧
    (loopBody (sim [Except.ok rgbFrame, Except.ok bayerFrame, Except.ok rgbFrame])
        (simVars [Except.ok rgbFrame, Except.ok bayerFrame, Except.ok rgbFrame])).1 =
      (loopBody (sim [Except.ok rgbFrame, Except.ok bayerFrame, Except.ok rgbFrame]) usedVars).1 :=
  ⟨rfl, rfl,
    ((rounds_independent (sim [Except.ok rgbFrame, Except.ok bayerFrame, Except.ok rgbFrame])).2
      (simVars [Except.ok rgbFrame, Except.ok bayerFrame, Except.ok rgbFrame]) usedVars rgbFrame
      { remaining := 0, delivered := 1 } { remaining := 0, delivered := 3 } rfl rfl).1⟩

theorem loopBody_notColor (sdk : Sdk Cam) (s : Vars Cam) (r : GrabResult) (cam : Cam)
    (hr : sdk.RetrieveResult 5000 TimeoutHandling.ThrowException s.camera = Except.ok (r, cam))
    (hf : r.grabSucceeded = true) (hc : sdk.IsColorImage r.image.pixelType = false) :
    loopBody sdk s =
      ([retrieveCall, Event.cout (Output.pixelFormat (sdk.GetNameByPixelType r.image.pixelType)),
        Event.cout Output.notColor],
        Res.ok () { s with camera := cam, ptrGrabResult := some r }) := by
  rw [loopBody_ok sdk s r cam hr, processFrame_notColor sdk _ r rfl hf hc]

theorem bind_events {σ α β : Type} (m : M σ α) (f : α → M σ β) (s : σ) (ev : Event)
    (h : ev ∈ (m s).1) : ev ∈ ((m >>= f) s).1 := by
  rcases hm : m s with ⟨t, res⟩
  rw [hm] at h
  cases res with
  | ok a s1 =>
    rw [bind_ok hm]
    exact List.mem_append.2 (Or.inl h)
  | thrown e =>
    rw [bind_thrown hm]
    exact h
  | undefinedBehaviour =>
    rw [bind_undefined hm]
    exact h
  | outOfFuel =>
    rw [bind_outOfFuel hm]
    exact h

theorem sdkCall_logged {σ α : Type} (c : Call) (r : Except GenericException α) (s : σ) :
    Event.call c ∈ (sdkCall c r s).1 := by
  cases r <;> simp [sdkCall]

/-- Method #2 starts with the conversion of `myRGBImage` to planar RGB8. -/
theorem method2_converts (sdk : Sdk Cam) (t : Vars Cam) :
    Event.call (Call.Convert PixelType.RGB8planar t.myRGBImage) ∈ (method2 sdk t).1 := by
  unfold method2
  apply bind_events
  unfold splitPlanes
  have h1 : modifyVars (fun s : Vars Cam => { s with OutputPixelFormat := PixelType.RGB8planar }) t =
      ([], Res.ok () { t with OutputPixelFormat := PixelType.RGB8planar }) := rfl
  rw [bind_ok h1]
  have h2 : readVar (fun s : Vars Cam => s.OutputPixelFormat)
      { t with OutputPixelFormat := PixelType.RGB8planar } =
      ([], Res.ok PixelType.RGB8planar { t with OutputPixelFormat := PixelType.RGB8planar }) := rfl
  simp only [List.nil_append]
  rw [bind_ok h2]
  have h3 : readVar (fun s : Vars Cam => s.myRGBImage)
      { t with OutputPixelFormat := PixelType.RGB8planar } =
      ([], Res.ok t.myRGBImage { t with OutputPixelFormat := PixelType.RGB8planar }) := rfl
  simp only [List.nil_append]
  rw [bind_ok h3]
  simp only [List.nil_append]
  apply bind_events
  exact sdkCall_logged _ _ _

theorem convertSaveDisplay_imageWork (ev : Event) (h : isConvertSaveDisplay ev = true) :
    isImageWork ev = true := by
  rcases ev with c | e | b | o | o | n
  · cases c <;> simp [isConvertSaveDisplay] at h <;> rfl
  all_goals simp [isConvertSaveDisplay] at h

/-- C9, as amended.  For a retrieved frame the round makes a call on an image
(conversion, attaching, plane extraction, save, display) exactly when the frame
succeeded and its encoding is colour; a conversion, save or display occurs only
then, and a conversion does occur then if the frame is not RGB, or if it is RGB,
its attaching does not raise and its buffer holds the three bytes of a first
pixel.  A successful frame that is not colour gets the pixel format line and the
not-colour notice and nothing else.  On a successful colour frame, when no call
raises and every buffer read is in range, the round is: the call bringing the
frame into the packed RGB image `img`, the three pixel values, the conversion to
planar and the planes 0, 1, 2, their three first values, then the four saves
`RGB.bmp` (`img`), `red_plane.bmp` (plane 0), `green_plane.bmp` (plane 1),
`blue_plane.bmp` (plane 2), then the display of the same four images in windows
0, 1, 2, 3. -/
theorem frame_processing (sdk : Sdk Cam) (s : Vars Cam) (r : GrabResult) (cam : Cam)
    (hr : sdk.RetrieveResult 5000 TimeoutHandling.ThrowException s.camera = Except.ok (r, cam)) :
    ((∃ ev ∈ (loopBody sdk s).1, isImageWork ev = true) ↔
      (r.grabSucceeded = true ∧ sdk.IsColorImage r.image.pixelType = true)) ∧
    ((∃ ev ∈ (loopBody sdk s).1, isConvertSaveDisplay ev = true) →
      (r.grabSucceeded = true ∧ sdk.IsColorImage r.image.pixelType = true)) ∧
    (r.grabSucceeded = true → sdk.IsColorImage r.image.pixelType = true →
      (sdk.IsRGB r.image.pixelType = true →
        sdk.AttachGrabResultBuffer r = Except.ok () ∧ 3 ≤ r.image.buffer.length) →
      ∃ ev ∈ (loopBody sdk s).1, isConvert ev = true) ∧
    (r.grabSucceeded = true → sdk.IsColorImage r.image.pixelType = false →
      loopBody sdk s =
        ([retrieveCall, Event.cout (Output.pixelFormat (sdk.GetNameByPixelType r.image.pixelType)),
          Event.cout Output.notColor],
          Res.ok () { s with camera := cam, ptrGrabResult := some r })) ∧
    (r.grabSucceeded = true → sdk.IsColorImage r.image.pixelType = true →
      ∀ (img pl red green blue : Image) (b0 b1 b2 x0 x1 x2 : Byte) (tl tl0 tl1 tl2 : List Byte),
        ((sdk.IsRGB r.image.pixelType = true ∧
            sdk.AttachGrabResultBuffer r = Except.ok () ∧ img = r.image) ∨
          (sdk.IsRGB r.image.pixelType = false ∧
            sdk.Convert PixelType.RGB8packed r.image = Except.ok img)) →
        img.buffer = b0 :: b1 :: b2 :: tl →
        sdk.Convert PixelType.RGB8planar img = Except.ok pl →
        sdk.GetPlane pl 0 = Except.ok red → sdk.GetPlane pl 1 = Except.ok green →
        sdk.GetPlane pl 2 = Except.ok blue →
        red.buffer = x0 :: tl0 → green.buffer = x1 :: tl1 → blue.buffer = x2 :: tl2 →
        sdk.Save ImageFileFormat.Bmp "RGB.bmp" img = Except.ok () →
        sdk.Save ImageFileFormat.Bmp "red_plane.bmp" red = Except.ok () →
        sdk.Save ImageFileFormat.Bmp "green_plane.bmp" green = Except.ok () →
        sdk.Save ImageFileFormat.Bmp "blue_plane.bmp" blue = Except.ok () →
        sdk.DisplayImage 0 img = Except.ok () → sdk.DisplayImage 1 red = Except.ok () →
        sdk.DisplayImage 2 green = Except.ok () → sdk.DisplayImage 3 blue = Except.ok () →
        ∃ c t,
          ((sdk.IsRGB r.image.pixelType = true ∧ c = Call.AttachGrabResultBuffer r) ∨
            (sdk.IsRGB r.image.pixelType = false ∧
              c = Call.Convert PixelType.RGB8packed r.image)) ∧
          loopBody sdk s =
            ([retrieveCall,
              Event.cout (Output.pixelFormat (sdk.GetNameByPixelType r.image.pixelType)),
              Event.call c, Event.cout Output.blank, Event.cout Output.accessingRGB,
              Event.cout (Output.redValue b0.val), Event.cout (Output.greenValue b1.val),
              Event.cout (Output.blueValue b2.val),
              Event.call (Call.Convert PixelType.RGB8planar img),
              Event.call (Call.GetPlane pl 0), Event.call (Call.GetPlane pl 1),
              Event.call (Call.GetPlane pl 2),
              Event.cout Output.blank, Event.cout Output.accessingPlanar,
              Event.cout (Output.redPlane x0.val), Event.cout (Output.greenPlane x1.val),
              Event.cout (Output.bluePlane x2.val),
              Event.call (Call.Save ImageFileFormat.Bmp "RGB.bmp" img),
              Event.call (Call.Save ImageFileFormat.Bmp "red_plane.bmp" red),
              Event.call (Call.Save ImageFileFormat.Bmp "green_plane.bmp" green),
              Event.call (Call.Save ImageFileFormat.Bmp "blue_plane.bmp" blue),
              Event.call (Call.DisplayImage 0 img), Event.call (Call.DisplayImage 1 red),
              Event.call (Call.DisplayImage 2 green), Event.call (Call.DisplayImage 3 blue)],
              Res.ok () t)) := by
  have himage : (∃ ev ∈ (loopBody sdk s).1, isImageWork ev = true) →
      (r.grabSucceeded = true ∧ sdk.IsColorImage r.image.pixelType = true) := by
    rintro ⟨ev, hev, hw⟩
    cases hf : r.grabSucceeded with
    | false =>
      rw [loopBody_ok sdk s r cam hr, processFrame_failed sdk _ r rfl hf] at hev
      simp only [List.mem_cons, List.mem_singleton, List.not_mem_nil, or_false] at hev
      rcases hev with rfl | rfl <;> simp [isImageWork, retrieveCall] at hw
    | true =>
      cases hc : sdk.IsColorImage r.image.pixelType with
      | false =>
        rw [loopBody_notColor sdk s r cam hr hf hc] at hev
        simp only [List.mem_cons, List.mem_singleton, List.not_mem_nil, or_false] at hev
        rcases hev with rfl | rfl | rfl <;> simp [isImageWork, retrieveCall] at hw
      | true => exact ⟨rfl, rfl⟩
  refine ⟨⟨himage, ?_⟩, ?_, ?_, fun hf hc => loopBody_notColor sdk s r cam hr hf hc, ?_⟩
  · rintro ⟨hf, hc⟩
    obtain ⟨c, img, m1, m2, hcase, hev, -⟩ := color_round_events sdk s r cam hr hf hc
    refine ⟨Event.call c, by rw [hev]; simp, ?_⟩
    rcases hcase with ⟨-, rfl, -⟩ | ⟨-, rfl, -⟩ <;> rfl
  · rintro ⟨ev, hev, hw⟩
    exact himage ⟨ev, hev, convertSaveDisplay_imageWork ev hw⟩
  · intro hf hc hrgb
    cases hi : sdk.IsRGB r.image.pixelType with
    | false =>
      obtain ⟨c, img, m1, m2, hcase, hev, -⟩ := color_round_events sdk s r cam hr hf hc
      refine ⟨Event.call c, by rw [hev]; simp, ?_⟩
      rcases hcase with ⟨h, -⟩ | ⟨-, rfl, -⟩
      · rw [hi] at h
        exact absurd h (by simp)
      · rfl
    | true =>
      obtain ⟨hatt, hlen⟩ := hrgb hi
      obtain ⟨c, t, ht, -, -, heq⟩ :=
        color_round_obtained sdk s r cam r.image hr hf hc (Or.inl ⟨hi, hatt, rfl⟩)
      obtain ⟨b0, b1, b2, tl, hb⟩ := three_bytes r.image.buffer hlen
      refine ⟨Event.call (Call.Convert PixelType.RGB8planar t.myRGBImage), ?_, rfl⟩
      rw [heq]
      simp only
      rw [bind_ok (method1_eval t b0 b1 b2 tl (by rw [ht]; exact hb))]
      simp only [List.mem_cons, List.mem_append]
      exact Or.inr (Or.inr (Or.inr (Or.inr (method2_converts sdk t))))
  · intro hf hc img pl red green blue b0 b1 b2 x0 x1 x2 tl tl0 tl1 tl2 himg hb hpl h0 h1 h2
      hx0 hx1 hx2 hs0 hs1 hs2 hs3 hd0 hd1 hd2 hd3
    obtain ⟨c, t, ht, -, hcc, heq⟩ := color_round_obtained sdk s r cam img hr hf hc himg
    subst ht
    refine ⟨c, ({ t with OutputPixelFormat := PixelType.RGB8planar, myRGBPlanarImage := pl,
                         myRedImage := red, myGreenImage := green, myBlueImage := blue } :
      Vars Cam), hcc, ?_⟩
    rw [heq, access_reports sdk t pl red green blue b0 b1 b2 x0 x1 x2 tl tl0 tl1 tl2
      hb hpl h0 h1 h2 hx0 hx1 hx2,
      sinks_ok sdk ({ t with OutputPixelFormat := PixelType.RGB8planar, myRGBPlanarImage := pl,
                             myRedImage := red, myGreenImage := green, myBlueImage := blue } :
        Vars Cam) hs0 hs1 hs2 hs3 hd0 hd1 hd2 hd3]
    rfl

/-- C9 on the scripted SDK: a mono frame and an RGB frame. -/
theorem frame_processing_witness :
    (sim [Except.ok rgbFrame]).RetrieveResult 5000 TimeoutHandling.ThrowException
        (simVars [Except.ok rgbFrame]).camera =
      Except.ok (rgbFrame, { remaining := 0, delivered := 1 }) ∧
    loopBody (sim [Except.ok monoFrame]) (simVars [Except.ok monoFrame]) =
      ([retrieveCall, Event.cout (Output.pixelFormat
          ((sim [Except.ok monoFrame]).GetNameByPixelType monoFrame.image.pixelType)),
        Event.cout Output.notColor],
        Res.ok () { simVars [Except.ok monoFrame] with
          camera := { remaining := 0, delivered := 1 }, ptrGrabResult := some monoFrame }) ∧
    ∃ c t,
      (((sim [Except.ok rgbFrame]).IsRGB rgbFrame.image.pixelType = true ∧
          c = Call.AttachGrabResultBuffer rgbFrame) ∨
        ((sim [Except.ok rgbFrame]).IsRGB rgbFrame.image.pixelType = false ∧
          c = Call.Convert PixelType.RGB8packed rgbFrame.image)) ∧
      loopBody (sim [Except.ok rgbFrame]) (simVars [Except.ok rgbFrame]) =
        ([retrieveCall,
          Event.cout (Output.pixelFormat
            ((sim [Except.ok rgbFrame]).GetNameByPixelType rgbFrame.image.pixelType)),
          Event.call c, Event.cout Output.blank, Event.cout Output.accessingRGB,
          Event.cout (Output.redValue 10), Event.cout (Output.greenValue 20),
          Event.cout (Output.blueValue 30),
          Event.call (Call.Convert PixelType.RGB8planar rgbFrame.image),
          Event.call (Call.GetPlane rgbPlanar 0), Event.call (Call.GetPlane rgbPlanar 1),
          Event.call (Call.GetPlane rgbPlanar 2),
          Event.cout Output.blank, Event.cout Output.accessingPlanar,
          Event.cout (Output.redPlane 10), Event.cout (Output.greenPlane 20),
          Event.cout (Output.bluePlane 30),
          Event.call (Call.Save ImageFileFormat.Bmp "RGB.bmp" rgbFrame.image),
          Event.call (Call.Save ImageFileFormat.Bmp "red_plane.bmp" (rgbPlane 0)),
          Event.call (Call.Save ImageFileFormat.Bmp "green_plane.bmp" (rgbPlane 1)),
          Event.call (Call.Save ImageFileFormat.Bmp "blue_plane.bmp" (rgbPlane 2)),
          Event.call (Call.DisplayImage 0 rgbFrame.image),
          Event.call (Call.DisplayImage 1 (rgbPlane 0)),
          Event.call (Call.DisplayImage 2 (rgbPlane 1)),
          Event.call (Call.DisplayImage 3 (rgbPlane 2))], Res.ok () t) :=
  ⟨rfl,
    (frame_processing (sim [Except.ok monoFrame]) (simVars [Except.ok monoFrame]) monoFrame
      { remaining := 0, delivered := 1 } rfl).2.2.2.1 rfl rfl,
    (frame_processing (sim [Except.ok rgbFrame]) (simVars [Except.ok rgbFrame]) rgbFrame
      { remaining := 0, delivered := 1 } rfl).2.2.2.2 rfl rfl rgbFrame.image rgbPlanar (rgbPlane 0)
      (rgbPlane 1) (rgbPlane 2) 10 20 30 10 20 30 [40, 50, 60] [40] [50] [60]
      (Or.inl ⟨rfl, rfl, rfl⟩) rfl rfl rfl rfl rfl rfl rfl rfl rfl rfl rfl rfl rfl rfl rfl rfl⟩

/-- C9, counterexample to the original wording.  A succeeded colour RGB frame
whose attaching raises gets no conversion, save or display.  A succeeded colour RGB frame without a pixel,
on which no call raises, gets none either: line 113 reads past the end of its
buffer.  And a successful mono frame gets two lines, the pixel format and the
not-colour notice. -/
theorem frame_processing_counterexample :
    (rgbFrame.grabSucceeded = true ∧
      (simAttachRaises [Except.ok rgbFrame]).IsColorImage rgbFrame.image.pixelType = true ∧
      loopBody (simAttachRaises [Except.ok rgbFrame])
          (initialVars (simAttachRaises [Except.ok rgbFrame]) { remaining := 1, delivered := 0 }) =
        ([retrieveCall, Event.cout (Output.pixelFormat "RGB8"),
          Event.call (Call.AttachGrabResultBuffer rgbFrame),
          Event.raised { description := "Cannot attach the buffer" }],
          Res.thrown { description := "Cannot attach the buffer" }) ∧
      ∀ ev ∈ (loopBody (simAttachRaises [Except.ok rgbFrame])
          (initialVars (simAttachRaises [Except.ok rgbFrame])
            { remaining := 1, delivered := 0 })).1, isConvertSaveDisplay ev = false) ∧
    (emptyRgbFrame.grabSucceeded = true ∧
      (sim [Except.ok emptyRgbFrame]).IsColorImage emptyRgbFrame.image.pixelType = true ∧
      loopBody (sim [Except.ok emptyRgbFrame]) (simVars [Except.ok emptyRgbFrame]) =
        ([retrieveCall, Event.cout (Output.pixelFormat "RGB8"),
          Event.call (Call.AttachGrabResultBuffer emptyRgbFrame), Event.cout Output.blank,
          Event.cout Output.accessingRGB], Res.undefinedBehaviour) ∧
      ∀ ev ∈ (loopBody (sim [Except.ok emptyRgbFrame]) (simVars [Except.ok emptyRgbFrame])).1,
        isConvertSaveDisplay ev = false ∧ isRaised ev = false) ∧
    (monoFrame.grabSucceeded = true ∧
      (sim [Except.ok monoFrame]).IsColorImage monoFrame.image.pixelType = false ∧
      (loopBody (sim [Except.ok monoFrame]) (simVars [Except.ok monoFrame])).1 =
        [retrieveCall, Event.cout (Output.pixelFormat "Mono8"), Event.cout Output.notColor]) :=
  ⟨⟨rfl, rfl, rfl, by decide⟩, ⟨rfl, rfl, rfl, by decide⟩, ⟨rfl, rfl, rfl⟩⟩

theorem byte_ne_newline (b : Byte) (hb : b ≠ 10) : ((b.val : Int) != 10) = true := by
  simp only [bne_iff_ne, ne_eq]
  intro hx
  apply hb
  apply Fin.ext
  have : (b.val : Int) = ((10 : Nat) : Int) := hx
  exact_mod_cast this

theorem waitOnExit_reads (input : List Byte) (h : ∀ b ∈ input, b ≠ 10) :
    ∀ fuel, waitOnExit fuel input =
      ((input.map (fun b => Event.cinGet (b.val : Int))).take fuel ++
        List.replicate (fuel - input.length) (Event.cinGet (-1)), false) := by
  intro fuel
  induction fuel generalizing input with
  | zero => simp [waitOnExit]
  | succ n ih =>
    cases input with
    | nil =>
      have := ih [] (by simp)
      simp only [List.map_nil, List.take_nil, List.nil_append, List.length_nil, Nat.sub_zero]
        at this
      simp [waitOnExit, cinGet, this, List.replicate_succ]
    | cons b rest =>
      have hb2 := byte_ne_newline b (h b (List.mem_cons_self _ _))
      have := ih rest (fun x hx => h x (List.mem_cons_of_mem _ hx))
      simp [waitOnExit, cinGet, hb2, this]

/-- C10. The wait loop of line 172 is reached on the success path and on the
error path of `main`.  When the first newline of the input is at position k, the
loop makes exactly k + 1 reads, the last one returning the newline, and `main`
returns its exit code.  When the input holds no newline, the reads go through the
input and then return end-of-file (-1) for ever: whatever the budget, the loop is
not left and `main` returns no exit code. -/
theorem wait_on_exit (sdk : Sdk Cam) (stdin : List Byte) (fuel : Nat) :
    (∀ t u s, tryBlock sdk fuel = (t, Res.ok u s) →
      main sdk stdin fuel = waitAndReturn 0 stdin fuel t) ∧
    (∀ t e, tryBlock sdk fuel = (t, Res.thrown e) →
      main sdk stdin fuel =
        waitAndReturn 1 stdin fuel (t ++ [Event.cerr (Output.exceptionOccurred e.description)])) ∧
    (∀ pre post, stdin = pre ++ 10 :: post → (∀ b ∈ pre, b ≠ 10) → pre.length + 1 ≤ fuel →
      waitOnExit fuel stdin =
        (pre.map (fun b => Event.cinGet (b.val : Int)) ++ [Event.cinGet 10], true) ∧
      (waitOnExit fuel stdin).1.length = pre.length + 1 ∧
      ∀ code t, (waitAndReturn code stdin fuel t).outcome = Outcome.returned code) ∧
    ((∀ b ∈ stdin, b ≠ 10) →
      waitOnExit fuel stdin =
        ((stdin.map (fun b => Event.cinGet (b.val : Int))).take fuel ++
          List.replicate (fuel - stdin.length) (Event.cinGet (-1)), false) ∧
      (∀ code t, (waitAndReturn code stdin fuel t).outcome = Outcome.noReturn) ∧
      ∀ code, (main sdk stdin fuel).outcome ≠ Outcome.returned code) := by
  refine ⟨fun t u s h => main_of_ok sdk stdin fuel t u s h,
    fun t e h => main_of_thrown sdk stdin fuel t e h, ?_, ?_⟩
  · intro pre post hs hpre hfuel
    have hw := waitOnExit_newline pre post hpre fuel hfuel
    rw [← hs] at hw
    refine ⟨hw, by simp [hw], ?_⟩
    intro code t
    simp [waitAndReturn, hw]
  · intro hno
    have hw := waitOnExit_reads stdin hno fuel
    have hnr : ∀ code t, (waitAndReturn code stdin fuel t).outcome = Outcome.noReturn := by
      intro code t
      simp [waitAndReturn, hw]
    refine ⟨hw, hnr, ?_⟩
    intro code
    rcases h : tryBlock sdk fuel with ⟨t, res⟩
    cases res with
    | ok u s => rw [main_of_ok sdk stdin fuel t u s h, hnr]; simp
    | thrown e => rw [main_of_thrown sdk stdin fuel t e h, hnr]; simp
    | undefinedBehaviour => rw [main_of_undefined sdk stdin fuel t h]; simp
    | outOfFuel => rw [main_of_outOfFuel sdk stdin fuel t h]; simp

/-- C10 on the inputs "AB", newline, "C" and "AB". -/
theorem wait_on_exit_witness :
    (waitOnExit 5 [65, 66, 10, 67] =
        ([Event.cinGet 65, Event.cinGet 66, Event.cinGet 10], true) ∧
      (waitOnExit 5 [65, 66, 10, 67]).1.length = 2 + 1 ∧
      ∀ code t, (waitAndReturn code [65, 66, 10, 67] 5 t).outcome = Outcome.returned code) ∧
    (waitOnExit 5 [65, 66] =
        ([Event.cinGet 65, Event.cinGet 66, Event.cinGet (-1), Event.cinGet (-1),
          Event.cinGet (-1)], false) ∧
      (∀ code t, (waitAndReturn code [65, 66] 5 t).outcome = Outcome.noReturn) ∧
      ∀ code, (main (sim [Except.ok rgbFrame]) [65, 66] 5).outcome ≠ Outcome.returned code) :=
  ⟨(wait_on_exit (sim [Except.ok rgbFrame]) [65, 66, 10, 67] 5).2.2.1 [65, 66] [67] rfl
      (by simp) (by decide),
    (wait_on_exit (sim [Except.ok rgbFrame]) [65, 66] 5).2.2.2 (by simp)⟩

end PylonSample
